import Mathlib

/-!
# kofany/teleirc — `internal/mediashare/templates.go`

A shallow embedding of the two `html/template` templates of the package
(`playerTemplateHTML`, `notFoundTemplateHTML`) and of their execution
(`PlayerTemplate`, `NotFoundTemplate`, parsed in `init`).

The templates are Go `html/template` programs, so their meaning is the one the
Go standard library gives them.  The parts of the library the templates reach
are modelled here next to the templates themselves:

* the `index` builtin of `text/template` on a `map[string]string`;
* the truth test of `{{if}}` on `bool` and `string`;
* the escapers `html/template` inserts after every action according to the
  HTML context of the action (`_html_template_htmlescaper`,
  `_html_template_rcdataescaper`, `_html_template_attrescaper`,
  `_html_template_urlfilter`, `_html_template_urlnormalizer`,
  `_html_template_jsstrescaper`);
* the rewriting of template text done by the escaper (HTML comments are
  dropped, a CSS block comment becomes one space);
* `time.Time.Format` for the layout `"2006-01-02 15:04"`.

Go strings are modelled by Lean `String`s, that is by valid UTF-8 text.
-/

namespace Mediashare

/-! ## Data model (`templates.go`, lines 8–31) -/

/-- Go `time.Time`, seen through what `Format` reads of it: the calendar date and
the wall clock of the instant in the location stored in the value itself
(`t.Date()`, `t.Clock()`).  `Format` never converts to another zone. -/
structure Time where
  year : Int
  month : Nat
  day : Nat
  hour : Nat
  minute : Nat
  second : Nat
  deriving DecidableEq, Repr

/-- The ranges `t.Date()` and `t.Clock()` guarantee for month, day, hour, minute
and second.  The year is not bounded by the type. -/
def Time.WellFormed (t : Time) : Prop :=
  1 ≤ t.month ∧ t.month ≤ 12 ∧ 1 ≤ t.day ∧ t.day ≤ 31 ∧
    t.hour ≤ 23 ∧ t.minute ≤ 59 ∧ t.second ≤ 59

instance (t : Time) : Decidable t.WellFormed := by
  unfold Time.WellFormed; exact inferInstance

/-- Go `map[string]string`: an association list, looked up from the front. -/
abbrev StringTable := List (String × String)

/-- PageData contains data for rendering the player page. -/
structure PageData where
  ID : String
  Filename : String
  ContentType : String
  Size : Int
  IsVideo : Bool
  IsAudio : Bool
  IsImage : Bool
  RawURL : String
  Username : String
  UploadedAt : Time
  ServiceName : String
  Lang : String
  T : StringTable
  BaseURL : String

/-- NotFoundData contains data for the 404 page. -/
structure NotFoundData where
  ServiceName : String
  Lang : String
  T : StringTable

/-! ## `text/template`: the `index` builtin and the truth of a value -/

/-- The builtin `index` of `text/template` applied to a `map[string]string` and a
string key (`text/template/funcs.go`, `index`, case `reflect.Map`): the stored
value when the key is present, otherwise `reflect.Zero` of the element type, the
empty string.  The errors of `index` (untyped nil, nil pointer, an item that
cannot be indexed, a key of the wrong type) cannot arise for a
`map[string]string` indexed by a string constant, so the result is always `ok`. -/
def index (m : StringTable) (key : String) : Except String String :=
  match m.lookup key with
  | some v => .ok v
  | none => .ok ""

/-- Truth of a string in `{{if}}` (`text/template/exec.go`, `isTrue`): a string
is true when its length is positive. -/
def isTrue (s : String) : Bool := !s.data.isEmpty

/-! ## `html/template`: escapers (`html.go`, `url.go`, `js.go`) -/

/-- The table `htmlReplacementTable` of `html/template/html.go`: the runes that
have a replacement, and the replacement. -/
def htmlReplacementTable (r : Char) : Option String :=
  if r = Char.ofNat 0 then some "\uFFFD"
  else if r = '"' then some "&#34;"
  else if r = '&' then some "&amp;"
  else if r = Char.ofNat 39 then some "&#39;"
  else if r = '+' then some "&#43;"
  else if r = '<' then some "&lt;"
  else if r = '>' then some "&gt;"
  else none

/-- The function `htmlReplacer(s, htmlReplacementTable, true)`: runes with a table
entry are replaced, every other rune is copied (`badRunes` is true, so no rune
outside the table is touched). -/
def htmlReplacer : List Char → List Char
  | [] => []
  | r :: rest =>
    match htmlReplacementTable r with
    | some repl => repl.data ++ htmlReplacer rest
    | none => r :: htmlReplacer rest

/-- The escaper `htmlEscaper` ("escapes for inclusion in HTML text") on a plain
string (content type `contentTypePlain`, the type of every Go `string`). -/
def htmlEscaper (s : String) : String := ⟨htmlReplacer s.data⟩

/-- The escaper `rcdataEscaper` ("escapes for inclusion in an RCDATA element
body", here `<title>`) on a plain string. -/
def rcdataEscaper (s : String) : String := ⟨htmlReplacer s.data⟩

/-- The escaper `attrEscaper` ("escapes for inclusion in quoted attribute
values") on a plain string. -/
def attrEscaper (s : String) : String := ⟨htmlReplacer s.data⟩

/-- UTF-8 encoding of a rune, as a list of byte values. -/
def utf8Bytes (c : Char) : List Nat :=
  let n := c.toNat
  if n < 0x80 then [n]
  else if n < 0x800 then [0xC0 + n / 64, 0x80 + n % 64]
  else if n < 0x10000 then [0xE0 + n / 4096, 0x80 + n / 64 % 64, 0x80 + n % 64]
  else [0xF0 + n / 262144, 0x80 + n / 4096 % 64, 0x80 + n / 64 % 64, 0x80 + n % 64]

/-- The bytes of a Go string. -/
def stringBytes (s : String) : List Nat := s.data.flatMap utf8Bytes

/-- One rune of `strings.EqualFold` against an ASCII lower-case letter `t` of
`"http"`, `"https"`, `"mailto"`: equal, or the upper-case ASCII letter, or (for
`s` only) U+017F LATIN SMALL LETTER LONG S, the third member of the simple
case-folding orbit of `s`. -/
def foldEqRune (r t : Char) : Bool :=
  r == t || r.toNat + 32 == t.toNat || (t == 's' && r.toNat == 0x17F)

/-- The comparison `strings.EqualFold(protocol, t)` for an ASCII lower-case
word `t`. -/
def equalFold : List Char → List Char → Bool
  | [], [] => true
  | r :: rs, t :: ts => foldEqRune r t && equalFold rs ts
  | _, _ => false

/-- The function `isSafeURL` of `html/template/url.go`: when the text before the
first colon has no slash it is a scheme, and only `http`, `https` and `mailto`
are allowed. -/
def isSafeURL (s : String) : Bool :=
  if ':' ∈ s.data then
    let protocol := s.data.takeWhile (fun c => c != ':')
    if '/' ∈ protocol then true
    else equalFold protocol "http".data || equalFold protocol "https".data ||
      equalFold protocol "mailto".data
  else true

/-- The constant `filterFailsafe`. -/
def filterFailsafe : String := "ZgotmplZ"

/-- The filter `urlFilter` on a plain string. -/
def urlFilter (s : String) : String :=
  if isSafeURL s then s else "#" ++ filterFailsafe

/-- The predicate `isHex` of `html/template/url.go` on a byte. -/
def isHex (c : Nat) : Bool :=
  (48 ≤ c && c ≤ 57) || (97 ≤ c && c ≤ 102) || (65 ≤ c && c ≤ 70)

/-- The bytes `processURLOnto` copies unchanged when normalising: the reserved
characters `! # $ & * + , / : ; = ? @ [ ]`, the unreserved `- . _ ~`, letters and
digits. -/
def urlByteKept (c : Nat) : Bool :=
  c ∈ [33, 35, 36, 38, 42, 43, 44, 47, 58, 59, 61, 63, 64, 91, 93] ||
  c ∈ [45, 46, 95, 126] ||
  (97 ≤ c && c ≤ 122) || (65 ≤ c && c ≤ 90) || (48 ≤ c && c ≤ 57)

/-- The loop of `processURLOnto(s, true, b)`: a kept byte is copied, a `%` that
starts a valid escape (`i+2 < len(s)` and two hex digits follow) is copied, any
other byte `c` is written as `%%%02x`. -/
def processURLOnto : List Nat → List Char
  | [] => []
  | c :: rest =>
    if urlByteKept c then Char.ofNat c :: processURLOnto rest
    else if c = 37 ∧ (match rest with
        | h1 :: h2 :: _ => isHex h1 && isHex h2
        | _ => false) = true
    then '%' :: processURLOnto rest
    else '%' :: Nat.digitChar (c / 16) :: Nat.digitChar (c % 16) :: processURLOnto rest

/-- The normaliser `urlNormalizer` (`urlProcessor(true, s)`). -/
def urlNormalizer (s : String) : String := ⟨processURLOnto (stringBytes s)⟩

/-- The pipeline `html/template` appends to an action in a quoted URL attribute
(`href`, `src`) at the start of the value: `_html_template_urlfilter`,
`_html_template_urlnormalizer`, `_html_template_attrescaper`. -/
def urlAttrEscaper (s : String) : String := attrEscaper (urlNormalizer (urlFilter s))

/-- Four hex digits of a code point below 0x10000, lower case. -/
def hex4 (n : Nat) : List Char :=
  [Nat.digitChar (n / 4096 % 16), Nat.digitChar (n / 256 % 16),
   Nat.digitChar (n / 16 % 16), Nat.digitChar (n % 16)]

/-- The replacement of one rune in `replace(s, jsStrReplacementTable)` of
`html/template/js.go`: `lowUnicodeReplacementTable` below U+0020, then
`jsStrReplacementTable`, then the two line separators U+2028 and U+2029. -/
def jsStrReplacement (r : Char) : Option (List Char) :=
  let n := r.toNat
  if n = 9 then some "\\t".data
  else if n = 10 then some "\\n".data
  else if n = 12 then some "\\f".data
  else if n = 13 then some "\\r".data
  else if n < 32 then some ("\\u".data ++ hex4 n)
  else if r = '"' ∨ r = Char.ofNat 96 ∨ r = '&' ∨ r = Char.ofNat 39 ∨ r = '+' ∨
      r = '<' ∨ r = '>' then some ("\\u".data ++ hex4 n)
  else if r = '/' then some "\\/".data
  else if n = 92 then some "\\\\".data
  else if n = 0x2028 ∨ n = 0x2029 then some ("\\u".data ++ hex4 n)
  else none

/-- The loop of `replace`. -/
def jsReplace : List Char → List Char
  | [] => []
  | r :: rest =>
    match jsStrReplacement r with
    | some repl => repl ++ jsReplace rest
    | none => r :: jsReplace rest

/-- The escaper `jsStrEscaper` on a plain string. -/
def jsStrEscaper (s : String) : String := ⟨jsReplace s.data⟩

/-! ## `time.Time.Format` for the layout `"2006-01-02 15:04"` -/

/-- The digit byte `'0' + u` (`utod` in `appendInt`). -/
def utod (u : Nat) : Char := Char.ofNat (48 + u)

/-- The digits `appendInt` writes for the magnitude `u`: the two fast paths for
two and four digits, otherwise the decimal digits of `u` preceded by
`width - n` zeros, `n` being their number (never truncated). -/
def appendDigits (u width : Nat) : List Char :=
  if width = 2 ∧ u < 100 then
    [utod (u / 10), utod (u % 10)]
  else if width = 4 ∧ u < 10000 then
    [utod (u / 1000), utod (u / 100 % 10), utod (u / 10 % 10), utod (u % 10)]
  else
    List.replicate (width - (Nat.toDigits 10 u).length) '0' ++ Nat.toDigits 10 u

/-- The function `appendInt(b, x, width)` of `time/format.go`, as the text it
appends: a minus sign for a negative value, then the digits of the magnitude,
padded with zeros on the left up to `width` digits. -/
def appendInt (x : Int) (width : Nat) : List Char :=
  (if x < 0 then ['-'] else []) ++ appendDigits x.natAbs width

/-- The chunks `nextStdChunk` finds in a layout, as far as this layout uses them. -/
inductive Chunk where
  | lit (s : String)
  | stdLongYear
  | stdZeroMonth
  | stdZeroDay
  | stdHour
  | stdZeroMinute

/-- The layout `"2006-01-02 15:04"` cut into chunks by `nextStdChunk`:
`2006` is `stdLongYear`, `01` is `stdZeroMonth`, `02` is `stdZeroDay`, `15` is
`stdHour` (24-hour clock), `04` is `stdZeroMinute`; the rest is literal. -/
def layoutChunks : List Chunk :=
  [.stdLongYear, .lit "-", .stdZeroMonth, .lit "-", .stdZeroDay, .lit " ",
   .stdHour, .lit ":", .stdZeroMinute]

/-- One chunk of `Time.appendFormat`. -/
def Chunk.append (t : Time) : Chunk → List Char
  | .lit s => s.data
  | .stdLongYear => appendInt t.year 4
  | .stdZeroMonth => appendInt t.month 2
  | .stdZeroDay => appendInt t.day 2
  | .stdHour => appendInt t.hour 2
  | .stdZeroMinute => appendInt t.minute 2

/-- The call `t.Format("2006-01-02 15:04")`. -/
def Time.Format (t : Time) : String := ⟨layoutChunks.flatMap (Chunk.append t)⟩

/-! ## Templates as node lists -/

/-- The escaper pipeline `html/template` appends to an action, chosen from the
HTML context in which the action stands (`html/template/escape.go`,
`escapeAction`).  For the contexts of these two templates:

* `html`: element content (`stateText`), `_html_template_htmlescaper`;
* `rcdata`: content of `<title>` (`stateRCDATA`), `_html_template_rcdataescaper`;
* `attr`: a double-quoted attribute whose name is neither a URL, a script nor a
  style attribute (`lang`, `content`, `type`, `alt`, `title`, `download`):
  `_html_template_attrescaper`;
* `urlAttr`: the start of a double-quoted URL attribute (`href`, `src`):
  `_html_template_urlfilter`, `_html_template_urlnormalizer`,
  `_html_template_attrescaper`;
* `jsStr`: inside a single-quoted JavaScript string in `<script>`:
  `_html_template_jsstrescaper`. -/
inductive Escaper where
  | html
  | rcdata
  | attr
  | urlAttr
  | jsStr
  deriving DecidableEq, Repr

/-- The escaper pipeline applied to the printed value of an action. -/
def Escaper.apply : Escaper → String → String
  | .html => htmlEscaper
  | .rcdata => rcdataEscaper
  | .attr => attrEscaper
  | .urlAttr => urlAttrEscaper
  | .jsStr => jsStrEscaper

/-- The pipelines of the two templates: a field of the data (`{{.Filename}}`,
`{{.UploadedAt.Format "2006-01-02 15:04"}}`) or a lookup in the string table
(`{{index .T "download"}}`). -/
inductive Pipe (α : Type) where
  | field (get : α → String)
  | index (table : α → StringTable) (key : String)

/-- Evaluation of a pipeline on the data (dot). -/
def Pipe.eval {α : Type} (d : α) : Pipe α → Except String String
  | .field get => .ok (get d)
  | .index table key => Mediashare.index (table d) key

/-- A node of the parsed template below the control actions: template text, or
an action with the escaper of its context. -/
inductive Node (α : Type) where
  | text (s : String)
  | action (pipe : Pipe α) (esc : Escaper)

/-- Execution of one node: text is written as it stands, an action writes the
escaped value of its pipeline, or stops the execution with the error of the
pipeline. -/
def Node.exec {α : Type} (d : α) : Node α → Except String String
  | .text s => .ok s
  | .action pipe esc =>
    match pipe.eval d with
    | .ok v => .ok (esc.apply v)
    | .error e => .error e

/-- Execution of a list of nodes, in order; the first error ends it. -/
def execNodes {α : Type} (d : α) : List (Node α) → Except String String
  | [] => .ok ""
  | n :: rest =>
    match n.exec d with
    | .error e => .error e
    | .ok s =>
      match execNodes d rest with
      | .error e => .error e
      | .ok out => .ok (s ++ out)

/-!
### The text of the templates

Each list below is a stretch of the template between two control actions, one
line of the source per line.  Text is given as `html/template` writes it: the
escaper drops HTML comments (`<!-- … -->`) from template text and replaces each
CSS block comment (`/* … */` inside `<style>`) by one space, so a source line
that holds only a comment is left with its indentation.
-/

/-- The document head up to the kind-dependent Open Graph block: `lang`, `<title>`, `og:title`, `og:description`, `og:site_name` (`playerTemplateHTML`, source lines 33–44). -/
def playerHead : List (Node PageData) := [
  Node.text "<!DOCTYPE html>\n",
  Node.text "<html lang=\"", Node.action (Pipe.field PageData.Lang) Escaper.attr, Node.text "\">\n",
  Node.text "<head>\n",
  Node.text "    <meta charset=\"UTF-8\">\n",
  Node.text "    <meta name=\"viewport\" content=\"width=device-width, initial-scale=1.0\">\n",
  Node.text "    <title>", Node.action (Pipe.field PageData.Filename) Escaper.rcdata, Node.text " - ", Node.action (Pipe.field PageData.ServiceName) Escaper.rcdata, Node.text "</title>\n",
  Node.text "\n",
  Node.text "    \n",
  Node.text "    <meta property=\"og:title\" content=\"", Node.action (Pipe.field PageData.Filename) Escaper.attr, Node.text "\">\n",
  Node.text "    <meta property=\"og:description\" content=\"", Node.action (Pipe.index PageData.T "uploaded_by") Escaper.attr, Node.text " ", Node.action (Pipe.field PageData.Username) Escaper.attr, Node.text "\">\n",
  Node.text "    <meta property=\"og:site_name\" content=\"", Node.action (Pipe.field PageData.ServiceName) Escaper.attr, Node.text "\">\n",
  Node.text "    "
]

/-- Open Graph block of the branch `{{if .IsVideo}}` (`playerTemplateHTML`, source lines 44–48). -/
def ogVideo : List (Node PageData) := [
  Node.text "\n",
  Node.text "    <meta property=\"og:type\" content=\"video.other\">\n",
  Node.text "    <meta property=\"og:video\" content=\"", Node.action (Pipe.field PageData.RawURL) Escaper.attr, Node.text "\">\n",
  Node.text "    <meta property=\"og:video:type\" content=\"", Node.action (Pipe.field PageData.ContentType) Escaper.attr, Node.text "\">\n",
  Node.text "    "
]

/-- Open Graph block of the branch `{{else if .IsImage}}` (`playerTemplateHTML`, source lines 48–51). -/
def ogImage : List (Node PageData) := [
  Node.text "\n",
  Node.text "    <meta property=\"og:type\" content=\"website\">\n",
  Node.text "    <meta property=\"og:image\" content=\"", Node.action (Pipe.field PageData.RawURL) Escaper.attr, Node.text "\">\n",
  Node.text "    "
]

/-- Open Graph block of the branch `{{else if .IsAudio}}` (`playerTemplateHTML`, source lines 51–54). -/
def ogAudio : List (Node PageData) := [
  Node.text "\n",
  Node.text "    <meta property=\"og:type\" content=\"music.song\">\n",
  Node.text "    <meta property=\"og:audio\" content=\"", Node.action (Pipe.field PageData.RawURL) Escaper.attr, Node.text "\">\n",
  Node.text "    "
]

/-- Text between the Open Graph block and the value of `twitter:card` (`playerTemplateHTML`, source lines 54–57). -/
def twitterCardOpen : List (Node PageData) := [
  Node.text "\n",
  Node.text "\n",
  Node.text "    \n",
  Node.text "    <meta name=\"twitter:card\" content=\""
]

/-- Value of `twitter:card` in the branch `{{if .IsVideo}}` (`playerTemplateHTML`, source lines 57–57). -/
def cardPlayer : List (Node PageData) := [
  Node.text "player"
]

/-- Value of `twitter:card` in the branch `{{else if .IsImage}}` (`playerTemplateHTML`, source lines 57–57). -/
def cardSummaryLargeImage : List (Node PageData) := [
  Node.text "summary_large_image"
]

/-- Value of `twitter:card` in the branch `{{else}}` (`playerTemplateHTML`, source lines 57–57). -/
def cardSummary : List (Node PageData) := [
  Node.text "summary"
]

/-- From the end of the `twitter:card` tag to the opening of the player area: scripts, styles, header (`playerTemplateHTML`, source lines 57–165). -/
def playerChrome : List (Node PageData) := [
  Node.text "\">\n",
  Node.text "\n",
  Node.text "    \n",
  Node.text "    <script src=\"https://cdn.tailwindcss.com\"></script>\n",
  Node.text "    <script>\n",
  Node.text "        tailwind.config = \x7b\n",
  Node.text "            darkMode: 'class',\n",
  Node.text "            theme: \x7b\n",
  Node.text "                extend: \x7b\n",
  Node.text "                    colors: \x7b\n",
  Node.text "                        primary: \x7b\n",
  Node.text "                            50: '#f0f9ff',\n",
  Node.text "                            100: '#e0f2fe',\n",
  Node.text "                            200: '#bae6fd',\n",
  Node.text "                            300: '#7dd3fc',\n",
  Node.text "                            400: '#38bdf8',\n",
  Node.text "                            500: '#0ea5e9',\n",
  Node.text "                            600: '#0284c7',\n",
  Node.text "                            700: '#0369a1',\n",
  Node.text "                            800: '#075985',\n",
  Node.text "                            900: '#0c4a6e',\n",
  Node.text "                        \x7d\n",
  Node.text "                    \x7d\n",
  Node.text "                \x7d\n",
  Node.text "            \x7d\n",
  Node.text "        \x7d\n",
  Node.text "    </script>\n",
  Node.text "\n",
  Node.text "    \n",
  Node.text "    <script>\n",
  Node.text "        if (localStorage.theme === 'dark' || (!('theme' in localStorage) && window.matchMedia('(prefers-color-scheme: dark)').matches)) \x7b\n",
  Node.text "            document.documentElement.classList.add('dark');\n",
  Node.text "        \x7d else \x7b\n",
  Node.text "            document.documentElement.classList.remove('dark');\n",
  Node.text "        \x7d\n",
  Node.text "    </script>\n",
  Node.text "\n",
  Node.text "    <style>\n",
  Node.text "         \n",
  Node.text "        ::-webkit-scrollbar \x7b width: 8px; height: 8px; \x7d\n",
  Node.text "        ::-webkit-scrollbar-track \x7b background: transparent; \x7d\n",
  Node.text "        ::-webkit-scrollbar-thumb \x7b background: #888; border-radius: 4px; \x7d\n",
  Node.text "        ::-webkit-scrollbar-thumb:hover \x7b background: #666; \x7d\n",
  Node.text "\n",
  Node.text "         \n",
  Node.text "        video, audio \x7b\n",
  Node.text "            max-height: 70vh;\n",
  Node.text "            border-radius: 0.75rem;\n",
  Node.text "        \x7d\n",
  Node.text "\n",
  Node.text "         \n",
  Node.text "        .media-image \x7b\n",
  Node.text "            max-height: 80vh;\n",
  Node.text "            object-fit: contain;\n",
  Node.text "        \x7d\n",
  Node.text "\n",
  Node.text "         \n",
  Node.text "        .fade-in \x7b\n",
  Node.text "            animation: fadeIn 0.3s ease-in-out;\n",
  Node.text "        \x7d\n",
  Node.text "        @keyframes fadeIn \x7b\n",
  Node.text "            from \x7b opacity: 0; transform: translateY(10px); \x7d\n",
  Node.text "            to \x7b opacity: 1; transform: translateY(0); \x7d\n",
  Node.text "        \x7d\n",
  Node.text "\n",
  Node.text "         \n",
  Node.text "        .copy-feedback \x7b\n",
  Node.text "            animation: copyPulse 0.5s ease-in-out;\n",
  Node.text "        \x7d\n",
  Node.text "        @keyframes copyPulse \x7b\n",
  Node.text "            0%, 100% \x7b transform: scale(1); \x7d\n",
  Node.text "            50% \x7b transform: scale(1.1); \x7d\n",
  Node.text "        \x7d\n",
  Node.text "    </style>\n",
  Node.text "</head>\n",
  Node.text "<body class=\"min-h-screen bg-gradient-to-br from-gray-50 to-gray-100 dark:from-gray-900 dark:to-gray-800 text-gray-900 dark:text-gray-100 transition-colors duration-300\">\n",
  Node.text "\n",
  Node.text "    \n",
  Node.text "    <header class=\"fixed top-0 left-0 right-0 z-50 backdrop-blur-md bg-white/80 dark:bg-gray-900/80 border-b border-gray-200 dark:border-gray-700\">\n",
  Node.text "        <div class=\"max-w-6xl mx-auto px-4 py-3 flex items-center justify-between\">\n",
  Node.text "            <a href=\"/\" class=\"flex items-center gap-2 text-lg font-semibold text-primary-600 dark:text-primary-400\">\n",
  Node.text "                <svg class=\"w-6 h-6\" fill=\"none\" stroke=\"currentColor\" viewBox=\"0 0 24 24\">\n",
  Node.text "                    <path stroke-linecap=\"round\" stroke-linejoin=\"round\" stroke-width=\"2\" d=\"M7 4v16M17 4v16M3 8h4m10 0h4M3 12h18M3 16h4m10 0h4M4 20h16a1 1 0 001-1V5a1 1 0 00-1-1H4a1 1 0 00-1 1v14a1 1 0 001 1z\"/>\n",
  Node.text "                </svg>\n",
  Node.text "                ", Node.action (Pipe.field PageData.ServiceName) Escaper.html, Node.text "\n",
  Node.text "            </a>\n",
  Node.text "\n",
  Node.text "            \n",
  Node.text "            <button onclick=\"toggleTheme()\" class=\"p-2 rounded-lg hover:bg-gray-200 dark:hover:bg-gray-700 transition-colors\" title=\"Toggle theme\">\n",
  Node.text "                <svg class=\"w-5 h-5 hidden dark:block\" fill=\"currentColor\" viewBox=\"0 0 20 20\">\n",
  Node.text "                    <path fill-rule=\"evenodd\" d=\"M10 2a1 1 0 011 1v1a1 1 0 11-2 0V3a1 1 0 011-1zm4 8a4 4 0 11-8 0 4 4 0 018 0zm-.464 4.95l.707.707a1 1 0 001.414-1.414l-.707-.707a1 1 0 00-1.414 1.414zm2.12-10.607a1 1 0 010 1.414l-.706.707a1 1 0 11-1.414-1.414l.707-.707a1 1 0 011.414 0zM17 11a1 1 0 100-2h-1a1 1 0 100 2h1zm-7 4a1 1 0 011 1v1a1 1 0 11-2 0v-1a1 1 0 011-1zM5.05 6.464A1 1 0 106.465 5.05l-.708-.707a1 1 0 00-1.414 1.414l.707.707zm1.414 8.486l-.707.707a1 1 0 01-1.414-1.414l.707-.707a1 1 0 011.414 1.414zM4 11a1 1 0 100-2H3a1 1 0 000 2h1z\" clip-rule=\"evenodd\"/>\n",
  Node.text "                </svg>\n",
  Node.text "                <svg class=\"w-5 h-5 block dark:hidden\" fill=\"currentColor\" viewBox=\"0 0 20 20\">\n",
  Node.text "                    <path d=\"M17.293 13.293A8 8 0 016.707 2.707a8.001 8.001 0 1010.586 10.586z\"/>\n",
  Node.text "                </svg>\n",
  Node.text "            </button>\n",
  Node.text "        </div>\n",
  Node.text "    </header>\n",
  Node.text "\n",
  Node.text "    \n",
  Node.text "    <main class=\"pt-20 pb-16 px-4\">\n",
  Node.text "        <div class=\"max-w-4xl mx-auto fade-in\">\n",
  Node.text "\n",
  Node.text "            \n",
  Node.text "            <div class=\"bg-white dark:bg-gray-800 rounded-2xl shadow-xl overflow-hidden\">\n",
  Node.text "\n",
  Node.text "                \n",
  Node.text "                <div class=\"relative bg-black flex items-center justify-center min-h-[300px]\">\n",
  Node.text "                    "
]

/-- Player fragment of the branch `{{if .IsVideo}}` (`playerTemplateHTML`, source lines 165–170). -/
def playerVideo : List (Node PageData) := [
  Node.text "\n",
  Node.text "                    <video controls autoplay playsinline class=\"w-full\" preload=\"metadata\">\n",
  Node.text "                        <source src=\"", Node.action (Pipe.field PageData.RawURL) Escaper.urlAttr, Node.text "\" type=\"", Node.action (Pipe.field PageData.ContentType) Escaper.attr, Node.text "\">\n",
  Node.text "                        ", Node.action (Pipe.index PageData.T "unsupported") Escaper.html, Node.text "\n",
  Node.text "                    </video>\n",
  Node.text "                    "
]

/-- Player fragment of the branch `{{else if .IsAudio}}` (`playerTemplateHTML`, source lines 170–182). -/
def playerAudio : List (Node PageData) := [
  Node.text "\n",
  Node.text "                    <div class=\"w-full p-8 flex flex-col items-center gap-6\">\n",
  Node.text "                        <div class=\"w-32 h-32 rounded-full bg-gradient-to-br from-primary-400 to-primary-600 flex items-center justify-center\">\n",
  Node.text "                            <svg class=\"w-16 h-16 text-white\" fill=\"currentColor\" viewBox=\"0 0 20 20\">\n",
  Node.text "                                <path d=\"M18 3a1 1 0 00-1.196-.98l-10 2A1 1 0 006 5v9.114A4.369 4.369 0 005 14c-1.657 0-3 .895-3 2s1.343 2 3 2 3-.895 3-2V7.82l8-1.6v5.894A4.37 4.37 0 0015 12c-1.657 0-3 .895-3 2s1.343 2 3 2 3-.895 3-2V3z\"/>\n",
  Node.text "                            </svg>\n",
  Node.text "                        </div>\n",
  Node.text "                        <audio controls autoplay class=\"w-full max-w-md\" preload=\"metadata\">\n",
  Node.text "                            <source src=\"", Node.action (Pipe.field PageData.RawURL) Escaper.urlAttr, Node.text "\" type=\"", Node.action (Pipe.field PageData.ContentType) Escaper.attr, Node.text "\">\n",
  Node.text "                            ", Node.action (Pipe.index PageData.T "unsupported") Escaper.html, Node.text "\n",
  Node.text "                        </audio>\n",
  Node.text "                    </div>\n",
  Node.text "                    "
]

/-- Player fragment of the branch `{{else if .IsImage}}` (`playerTemplateHTML`, source lines 182–186). -/
def playerImage : List (Node PageData) := [
  Node.text "\n",
  Node.text "                    <a href=\"", Node.action (Pipe.field PageData.RawURL) Escaper.urlAttr, Node.text "\" target=\"_blank\" class=\"block\">\n",
  Node.text "                        <img src=\"", Node.action (Pipe.field PageData.RawURL) Escaper.urlAttr, Node.text "\" alt=\"", Node.action (Pipe.field PageData.Filename) Escaper.attr, Node.text "\" class=\"media-image w-full\" loading=\"eager\">\n",
  Node.text "                    </a>\n",
  Node.text "                    "
]

/-- Player fragment of the branch `{{else}}`: the placeholder for unsupported media (`playerTemplateHTML`, source lines 186–193). -/
def playerUnsupported : List (Node PageData) := [
  Node.text "\n",
  Node.text "                    <div class=\"p-8 text-center text-gray-400\">\n",
  Node.text "                        <svg class=\"w-16 h-16 mx-auto mb-4\" fill=\"none\" stroke=\"currentColor\" viewBox=\"0 0 24 24\">\n",
  Node.text "                            <path stroke-linecap=\"round\" stroke-linejoin=\"round\" stroke-width=\"2\" d=\"M9 12h6m-6 4h6m2 5H7a2 2 0 01-2-2V5a2 2 0 012-2h5.586a1 1 0 01.707.293l5.414 5.414a1 1 0 01.293.707V19a2 2 0 01-2 2z\"/>\n",
  Node.text "                        </svg>\n",
  Node.text "                        <p>", Node.action (Pipe.index PageData.T "unsupported") Escaper.html, Node.text "</p>\n",
  Node.text "                    </div>\n",
  Node.text "                    "
]

/-- From the end of the player area to the uploader line: the `<h1>` heading with the filename (`playerTemplateHTML`, source lines 193–204). -/
def playerInfo : List (Node PageData) := [
  Node.text "\n",
  Node.text "                </div>\n",
  Node.text "\n",
  Node.text "                \n",
  Node.text "                <div class=\"p-6 space-y-4\">\n",
  Node.text "\n",
  Node.text "                    \n",
  Node.text "                    <h1 class=\"text-xl font-semibold truncate\" title=\"", Node.action (Pipe.field PageData.Filename) Escaper.attr, Node.text "\">", Node.action (Pipe.field PageData.Filename) Escaper.html, Node.text "</h1>\n",
  Node.text "\n",
  Node.text "                    \n",
  Node.text "                    <div class=\"flex flex-wrap gap-4 text-sm text-gray-600 dark:text-gray-400\">\n",
  Node.text "                        "
]

/-- Body of `{{if .Username}}`: the uploader line (`playerTemplateHTML`, source lines 204–211). -/
def uploaderLine : List (Node PageData) := [
  Node.text "\n",
  Node.text "                        <div class=\"flex items-center gap-2\">\n",
  Node.text "                            <svg class=\"w-4 h-4\" fill=\"none\" stroke=\"currentColor\" viewBox=\"0 0 24 24\">\n",
  Node.text "                                <path stroke-linecap=\"round\" stroke-linejoin=\"round\" stroke-width=\"2\" d=\"M16 7a4 4 0 11-8 0 4 4 0 018 0zM12 14a7 7 0 00-7 7h14a7 7 0 00-7-7z\"/>\n",
  Node.text "                            </svg>\n",
  Node.text "                            <span>", Node.action (Pipe.index PageData.T "uploaded_by") Escaper.html, Node.text " <strong class=\"text-gray-900 dark:text-gray-100\">", Node.action (Pipe.field PageData.Username) Escaper.html, Node.text "</strong></span>\n",
  Node.text "                        </div>\n",
  Node.text "                        "
]

/-- The rest of the page: upload time, the three actions, footer, script (`playerTemplateHTML`, source lines 211–277). -/
def playerTail : List (Node PageData) := [
  Node.text "\n",
  Node.text "                        <div class=\"flex items-center gap-2\">\n",
  Node.text "                            <svg class=\"w-4 h-4\" fill=\"none\" stroke=\"currentColor\" viewBox=\"0 0 24 24\">\n",
  Node.text "                                <path stroke-linecap=\"round\" stroke-linejoin=\"round\" stroke-width=\"2\" d=\"M12 8v4l3 3m6-3a9 9 0 11-18 0 9 9 0 0118 0z\"/>\n",
  Node.text "                            </svg>\n",
  Node.text "                            <span>", Node.action (Pipe.index PageData.T "uploaded_at") Escaper.html, Node.text " <strong class=\"text-gray-900 dark:text-gray-100\">", Node.action (Pipe.field fun d => d.UploadedAt.Format) Escaper.html, Node.text "</strong></span>\n",
  Node.text "                        </div>\n",
  Node.text "                    </div>\n",
  Node.text "\n",
  Node.text "                    \n",
  Node.text "                    <div class=\"flex flex-wrap gap-3 pt-2\">\n",
  Node.text "                        <a href=\"", Node.action (Pipe.field PageData.RawURL) Escaper.urlAttr, Node.text "\" download=\"", Node.action (Pipe.field PageData.Filename) Escaper.attr, Node.text "\"\n",
  Node.text "                           class=\"inline-flex items-center gap-2 px-4 py-2 bg-primary-600 hover:bg-primary-700 text-white font-medium rounded-lg transition-colors\">\n",
  Node.text "                            <svg class=\"w-5 h-5\" fill=\"none\" stroke=\"currentColor\" viewBox=\"0 0 24 24\">\n",
  Node.text "                                <path stroke-linecap=\"round\" stroke-linejoin=\"round\" stroke-width=\"2\" d=\"M4 16v1a3 3 0 003 3h10a3 3 0 003-3v-1m-4-4l-4 4m0 0l-4-4m4 4V4\"/>\n",
  Node.text "                            </svg>\n",
  Node.text "                            ", Node.action (Pipe.index PageData.T "download") Escaper.html, Node.text "\n",
  Node.text "                        </a>\n",
  Node.text "\n",
  Node.text "                        <button onclick=\"copyLink()\" id=\"copyBtn\"\n",
  Node.text "                                class=\"inline-flex items-center gap-2 px-4 py-2 bg-gray-200 hover:bg-gray-300 dark:bg-gray-700 dark:hover:bg-gray-600 font-medium rounded-lg transition-colors\">\n",
  Node.text "                            <svg class=\"w-5 h-5\" fill=\"none\" stroke=\"currentColor\" viewBox=\"0 0 24 24\">\n",
  Node.text "                                <path stroke-linecap=\"round\" stroke-linejoin=\"round\" stroke-width=\"2\" d=\"M8 5H6a2 2 0 00-2 2v12a2 2 0 002 2h10a2 2 0 002-2v-1M8 5a2 2 0 002 2h2a2 2 0 002-2M8 5a2 2 0 012-2h2a2 2 0 012 2m0 0h2a2 2 0 012 2v3m2 4H10m0 0l3-3m-3 3l3 3\"/>\n",
  Node.text "                            </svg>\n",
  Node.text "                            <span id=\"copyText\">", Node.action (Pipe.index PageData.T "copy_link") Escaper.html, Node.text "</span>\n",
  Node.text "                        </button>\n",
  Node.text "\n",
  Node.text "                        <a href=\"", Node.action (Pipe.field PageData.RawURL) Escaper.urlAttr, Node.text "\" target=\"_blank\"\n",
  Node.text "                           class=\"inline-flex items-center gap-2 px-4 py-2 bg-gray-200 hover:bg-gray-300 dark:bg-gray-700 dark:hover:bg-gray-600 font-medium rounded-lg transition-colors\">\n",
  Node.text "                            <svg class=\"w-5 h-5\" fill=\"none\" stroke=\"currentColor\" viewBox=\"0 0 24 24\">\n",
  Node.text "                                <path stroke-linecap=\"round\" stroke-linejoin=\"round\" stroke-width=\"2\" d=\"M10 6H6a2 2 0 00-2 2v10a2 2 0 002 2h10a2 2 0 002-2v-4M14 4h6m0 0v6m0-6L10 14\"/>\n",
  Node.text "                            </svg>\n",
  Node.text "                            ", Node.action (Pipe.index PageData.T "open_in_new_tab") Escaper.html, Node.text "\n",
  Node.text "                        </a>\n",
  Node.text "                    </div>\n",
  Node.text "                </div>\n",
  Node.text "            </div>\n",
  Node.text "        </div>\n",
  Node.text "    </main>\n",
  Node.text "\n",
  Node.text "    \n",
  Node.text "    <footer class=\"fixed bottom-0 left-0 right-0 py-3 text-center text-sm text-gray-500 dark:text-gray-400 bg-white/80 dark:bg-gray-900/80 backdrop-blur-md border-t border-gray-200 dark:border-gray-700\">\n",
  Node.text "        ", Node.action (Pipe.index PageData.T "powered_by") Escaper.html, Node.text " <strong>", Node.action (Pipe.field PageData.ServiceName) Escaper.html, Node.text "</strong>\n",
  Node.text "    </footer>\n",
  Node.text "\n",
  Node.text "    <script>\n",
  Node.text "        function toggleTheme() \x7b\n",
  Node.text "            document.documentElement.classList.toggle('dark');\n",
  Node.text "            localStorage.theme = document.documentElement.classList.contains('dark') ? 'dark' : 'light';\n",
  Node.text "        \x7d\n",
  Node.text "\n",
  Node.text "        function copyLink() \x7b\n",
  Node.text "            navigator.clipboard.writeText(window.location.href).then(() => \x7b\n",
  Node.text "                const btn = document.getElementById('copyBtn');\n",
  Node.text "                const text = document.getElementById('copyText');\n",
  Node.text "                const originalText = text.textContent;\n",
  Node.text "                text.textContent = '", Node.action (Pipe.index PageData.T "copied") Escaper.jsStr, Node.text "';\n",
  Node.text "                btn.classList.add('copy-feedback');\n",
  Node.text "                setTimeout(() => \x7b\n",
  Node.text "                    text.textContent = originalText;\n",
  Node.text "                    btn.classList.remove('copy-feedback');\n",
  Node.text "                \x7d, 2000);\n",
  Node.text "            \x7d);\n",
  Node.text "        \x7d\n",
  Node.text "    </script>\n",
  Node.text "</body>\n",
  Node.text "</html>"
]

/-- The whole template, which has no control actions (`notFoundTemplateHTML`, source lines 279–322). -/
def notFoundPage : List (Node NotFoundData) := [
  Node.text "<!DOCTYPE html>\n",
  Node.text "<html lang=\"", Node.action (Pipe.field NotFoundData.Lang) Escaper.attr, Node.text "\">\n",
  Node.text "<head>\n",
  Node.text "    <meta charset=\"UTF-8\">\n",
  Node.text "    <meta name=\"viewport\" content=\"width=device-width, initial-scale=1.0\">\n",
  Node.text "    <title>", Node.action (Pipe.index NotFoundData.T "not_found") Escaper.rcdata, Node.text " - ", Node.action (Pipe.field NotFoundData.ServiceName) Escaper.rcdata, Node.text "</title>\n",
  Node.text "    <script src=\"https://cdn.tailwindcss.com\"></script>\n",
  Node.text "    <script>\n",
  Node.text "        tailwind.config = \x7b\n",
  Node.text "            darkMode: 'class',\n",
  Node.text "            theme: \x7b\n",
  Node.text "                extend: \x7b\n",
  Node.text "                    colors: \x7b\n",
  Node.text "                        primary: \x7b\n",
  Node.text "                            600: '#0284c7',\n",
  Node.text "                            700: '#0369a1',\n",
  Node.text "                        \x7d\n",
  Node.text "                    \x7d\n",
  Node.text "                \x7d\n",
  Node.text "            \x7d\n",
  Node.text "        \x7d\n",
  Node.text "        if (localStorage.theme === 'dark' || (!('theme' in localStorage) && window.matchMedia('(prefers-color-scheme: dark)').matches)) \x7b\n",
  Node.text "            document.documentElement.classList.add('dark');\n",
  Node.text "        \x7d\n",
  Node.text "    </script>\n",
  Node.text "</head>\n",
  Node.text "<body class=\"min-h-screen bg-gradient-to-br from-gray-50 to-gray-100 dark:from-gray-900 dark:to-gray-800 text-gray-900 dark:text-gray-100 flex items-center justify-center p-4\">\n",
  Node.text "    <div class=\"text-center\">\n",
  Node.text "        <div class=\"mb-8\">\n",
  Node.text "            <svg class=\"w-24 h-24 mx-auto text-gray-400\" fill=\"none\" stroke=\"currentColor\" viewBox=\"0 0 24 24\">\n",
  Node.text "                <path stroke-linecap=\"round\" stroke-linejoin=\"round\" stroke-width=\"1.5\" d=\"M9.172 16.172a4 4 0 015.656 0M9 10h.01M15 10h.01M21 12a9 9 0 11-18 0 9 9 0 0118 0z\"/>\n",
  Node.text "            </svg>\n",
  Node.text "        </div>\n",
  Node.text "        <h1 class=\"text-3xl font-bold mb-2\">", Node.action (Pipe.index NotFoundData.T "not_found") Escaper.html, Node.text "</h1>\n",
  Node.text "        <p class=\"text-gray-600 dark:text-gray-400 mb-8\">", Node.action (Pipe.index NotFoundData.T "not_found_desc") Escaper.html, Node.text "</p>\n",
  Node.text "        <a href=\"/\" class=\"inline-flex items-center gap-2 px-6 py-3 bg-primary-600 hover:bg-primary-700 text-white font-medium rounded-lg transition-colors\">\n",
  Node.text "            <svg class=\"w-5 h-5\" fill=\"none\" stroke=\"currentColor\" viewBox=\"0 0 24 24\">\n",
  Node.text "                <path stroke-linecap=\"round\" stroke-linejoin=\"round\" stroke-width=\"2\" d=\"M3 12l2-2m0 0l7-7 7 7M5 10v10a1 1 0 001 1h3m10-11l2 2m-2-2v10a1 1 0 01-1 1h-3m-6 0a1 1 0 001-1v-4a1 1 0 011-1h2a1 1 0 011 1v4a1 1 0 001 1m-6 0h6\"/>\n",
  Node.text "            </svg>\n",
  Node.text "            ", Node.action (Pipe.field NotFoundData.ServiceName) Escaper.html, Node.text "\n",
  Node.text "        </a>\n",
  Node.text "    </div>\n",
  Node.text "</body>\n",
  Node.text "</html>"
]

/-- The parsed player template (`PlayerTemplate`, `playerTemplateHTML`): the
node list the execution walks for the data `d`.  The four control actions are
`{{if .IsVideo}}…{{else if .IsImage}}…{{else if .IsAudio}}…{{end}}` (Open
Graph, lines 44–54), `{{if .IsVideo}}…{{else if .IsImage}}…{{else}}…{{end}}`
(`twitter:card`, line 57),
`{{if .IsVideo}}…{{else if .IsAudio}}…{{else if .IsImage}}…{{else}}…{{end}}`
(player area, lines 165–193) and `{{if .Username}}…{{end}}` (lines 204–211). -/
def playerTemplateHTML (d : PageData) : List (Node PageData) :=
  playerHead ++
  (if d.IsVideo then ogVideo else if d.IsImage then ogImage
    else if d.IsAudio then ogAudio else []) ++
  twitterCardOpen ++
  (if d.IsVideo then cardPlayer else if d.IsImage then cardSummaryLargeImage
    else cardSummary) ++
  playerChrome ++
  (if d.IsVideo then playerVideo else if d.IsAudio then playerAudio
    else if d.IsImage then playerImage else playerUnsupported) ++
  playerInfo ++
  (if isTrue d.Username then uploaderLine else []) ++
  playerTail

/-- The parsed not-found template (`NotFoundTemplate`, `notFoundTemplateHTML`). -/
def notFoundTemplateHTML (_ : NotFoundData) : List (Node NotFoundData) := notFoundPage

/-- The call `PlayerTemplate.Execute(w, d)`: the text written to `w`, or the
error returned. -/
def PlayerTemplate (d : PageData) : Except String String :=
  execNodes d (playerTemplateHTML d)

/-- The call `NotFoundTemplate.Execute(w, d)`. -/
def NotFoundTemplate (d : NotFoundData) : Except String String :=
  execNodes d (notFoundTemplateHTML d)

/-! ## Notions used to state the properties -/

/-- The text `frag` occurs in the text `out`. -/
def Occurs (frag out : String) : Prop := frag.data <:+: out.data

/-- The Go index expression `m[key]` on a `map[string]string`: the stored value,
or the empty string when the key is missing. -/
def valueAt (m : StringTable) (key : String) : String := (m.lookup key).getD ""

/-- The value of a pipeline. -/
def Pipe.value {α : Type} (d : α) : Pipe α → String
  | .field get => get d
  | .index table key => valueAt (table d) key

/-- The text one node writes. -/
def Node.render {α : Type} (d : α) : Node α → String
  | .text s => s
  | .action pipe esc => esc.apply (pipe.value d)

/-- The text a list of nodes writes. -/
def renderNodes {α : Type} (d : α) : List (Node α) → String
  | [] => ""
  | n :: rest => n.render d ++ renderNodes d rest

/-- The text `m` occurs in `s`, as a computation. -/
def occursIn (m : List Char) : List Char → Bool
  | [] => m.isEmpty
  | c :: s => m.isPrefixOf (c :: s) || occursIn m s

/-- No `<` of `s` opens the tag `m`: at a `<`, the text from there on neither
begins with `m` nor is a beginning of `m` (which a later text could complete). -/
def noOpening (m : List Char) : List Char → Bool
  | [] => true
  | c :: s =>
    (c != '<' || (!m.isPrefixOf (c :: s) && !(c :: s).isPrefixOf m)) && noOpening m s

/-- No `<` of `s` opens any of the tags `ms`, in one pass over `s`. -/
def noOpenings (ms : List (List Char)) : List Char → Bool
  | [] => true
  | c :: s =>
    (c != '<' || ms.all fun m => !m.isPrefixOf (c :: s) && !(c :: s).isPrefixOf m) &&
      noOpenings ms s

/-- A text node leaves no room for the tag `m`.  An action is never looked at:
its escaped value has no `<`. -/
def Node.clear {α : Type} (m : List Char) : Node α → Bool
  | .text s => noOpening m s.data
  | .action _ _ => true

/-- Every node of the list is clear of the tag `m`. -/
def clearOf {α : Type} (m : String) (ns : List (Node α)) : Bool :=
  ns.all (Node.clear m.data)

/-- Names of the stretches of the player template. -/
inductive Part where
  | head | ogVideo | ogImage | ogAudio | twitterCardOpen
  | cardPlayer | cardSummaryLargeImage | cardSummary | chrome
  | playerVideo | playerAudio | playerImage | playerUnsupported
  | info | uploaderLine | tail
  deriving DecidableEq, Repr

/-- The nodes of a stretch. -/
def Part.nodes : Part → List (Node PageData)
  | .head => Mediashare.playerHead
  | .ogVideo => Mediashare.ogVideo
  | .ogImage => Mediashare.ogImage
  | .ogAudio => Mediashare.ogAudio
  | .twitterCardOpen => Mediashare.twitterCardOpen
  | .cardPlayer => Mediashare.cardPlayer
  | .cardSummaryLargeImage => Mediashare.cardSummaryLargeImage
  | .cardSummary => Mediashare.cardSummary
  | .chrome => Mediashare.playerChrome
  | .playerVideo => Mediashare.playerVideo
  | .playerAudio => Mediashare.playerAudio
  | .playerImage => Mediashare.playerImage
  | .playerUnsupported => Mediashare.playerUnsupported
  | .info => Mediashare.playerInfo
  | .uploaderLine => Mediashare.uploaderLine
  | .tail => Mediashare.playerTail

/-- All stretches. -/
def Part.all : List Part :=
  [.head, .ogVideo, .ogImage, .ogAudio, .twitterCardOpen, .cardPlayer,
   .cardSummaryLargeImage, .cardSummary, .chrome, .playerVideo, .playerAudio,
   .playerImage, .playerUnsupported, .info, .uploaderLine, .tail]

/-- The tag `m` stays out of every stretch but the listed ones. -/
def onlyIn (m : String) (homes : List Part) : Bool :=
  Part.all.all fun p => homes.contains p || clearOf m p.nodes

/-- The stretches after the twitter-card value, in the order the execution
walks them when the three flags are `v`, `a`, `i` and the truth of `Username`
is `u`. -/
def partsAfterCard (v a i u : Bool) : List Part :=
  [.chrome] ++
  [if v then .playerVideo else if a then .playerAudio
    else if i then .playerImage else .playerUnsupported] ++
  [.info] ++
  (if u then [.uploaderLine] else []) ++
  [.tail]

/-- The stretches from the Open Graph block on. -/
def partsAfterHead (v a i u : Bool) : List Part :=
  (if v then [.ogVideo] else if i then [.ogImage]
    else if a then [.ogAudio] else []) ++
  [.twitterCardOpen] ++
  [if v then .cardPlayer else if i then .cardSummaryLargeImage
    else .cardSummary] ++
  partsAfterCard v a i u

/-- The stretches the execution walks. -/
def partsFor (v a i u : Bool) : List Part := .head :: partsAfterHead v a i u

/-- The stretches the execution walks for `d`. -/
def playerParts (d : PageData) : List Part :=
  partsFor d.IsVideo d.IsAudio d.IsImage (isTrue d.Username)

/-- The media kinds. -/
inductive MediaKind where
  | video | audio | image | other
  deriving DecidableEq, Repr

/-- The first flag set, in the order video, audio, image; `other` when none is. -/
def kindVideoAudioImage (v a i : Bool) : MediaKind :=
  if v then .video else if a then .audio else if i then .image else .other

/-- The first flag set, in the order video, image, audio; `other` when none is. -/
def kindVideoImageAudio (v a i : Bool) : MediaKind :=
  if v then .video else if i then .image else if a then .audio else .other

/-- The first flag of `d` set, in the order video, audio, image. -/
def PageData.firstVideoAudioImage (d : PageData) : MediaKind :=
  kindVideoAudioImage d.IsVideo d.IsAudio d.IsImage

/-- The first flag of `d` set, in the order video, image, audio. -/
def PageData.firstVideoImageAudio (d : PageData) : MediaKind :=
  kindVideoImageAudio d.IsVideo d.IsAudio d.IsImage

/-- At most one of the three flags is set: the data has exactly one media kind
(video, audio, image, or other when no flag is set). -/
def PageData.OneKind (d : PageData) : Prop :=
  (d.IsVideo = true → d.IsAudio = false ∧ d.IsImage = false) ∧
  (d.IsAudio = true → d.IsImage = false)

/-- More than one of the three flags is set. -/
def PageData.SeveralKinds (d : PageData) : Prop :=
  (d.IsVideo = true ∧ d.IsAudio = true) ∨ (d.IsVideo = true ∧ d.IsImage = true) ∨
  (d.IsAudio = true ∧ d.IsImage = true)

/-- The player fragment of a kind (source lines 165–193). -/
def playerFragment : MediaKind → List (Node PageData)
  | .video => playerVideo
  | .audio => playerAudio
  | .image => playerImage
  | .other => playerUnsupported

/-- The Open Graph block of a kind (source lines 44–54); none for `other`. -/
def ogBlock : MediaKind → List (Node PageData)
  | .video => ogVideo
  | .image => ogImage
  | .audio => ogAudio
  | .other => []

/-- The opening tag that marks the player fragment of a kind: `<video`, `<audio`,
`<img`, and the placeholder box for unsupported media. -/
def playerTag : MediaKind → String
  | .video => "<video"
  | .audio => "<audio"
  | .image => "<img"
  | .other => "<div class=\"p-8 text-center text-gray-400\">"

/-- The tags that mark the Open Graph block of a kind: its `og:type` and its
media tag. -/
def ogTags : MediaKind → List String
  | .video => ["<meta property=\"og:type\" content=\"video.other\">",
      "<meta property=\"og:video\" content=\""]
  | .image => ["<meta property=\"og:type\" content=\"website\">",
      "<meta property=\"og:image\" content=\""]
  | .audio => ["<meta property=\"og:type\" content=\"music.song\">",
      "<meta property=\"og:audio\" content=\""]
  | .other => []

/-- The stretch that holds the player fragment of a kind. -/
def playerPart : MediaKind → Part
  | .video => .playerVideo
  | .audio => .playerAudio
  | .image => .playerImage
  | .other => .playerUnsupported

/-- The stretch that holds the Open Graph block of a kind. -/
def ogParts : MediaKind → List Part
  | .video => [.ogVideo]
  | .image => [.ogImage]
  | .audio => [.ogAudio]
  | .other => []

/-- The opening of the `og:description` meta tag. -/
def ogDescriptionTag : String := "<meta property=\"og:description\""

/-- The opening of the `twitter:card` meta tag. -/
def twitterCardTag : String := "<meta name=\"twitter:card\""

/-- The opening of a `<source>` tag. -/
def sourceTag : String := "<source"

/-- The opening tag of the element that shows a value in the meta info line (the
uploader name, the upload time). -/
def strongTag : String := "<strong class=\"text-gray-900 dark:text-gray-100\">"

/-- The user icon of the uploader line (source line 207). -/
def userIconTag : String :=
  "<path stroke-linecap=\"round\" stroke-linejoin=\"round\" stroke-width=\"2\" d=\"M16 7a4 4 0 11-8 0 4 4 0 018 0zM12 14a7 7 0 00-7 7h14a7 7 0 00-7-7z\"/>"

/-- The tags the properties speak of, each with the stretches that write it. -/
def tagTable : List (String × List Part) :=
  [(playerTag .video, [.playerVideo]), (playerTag .audio, [.playerAudio]),
   (playerTag .image, [.playerImage]), (playerTag .other, [.playerUnsupported]),
   ("<meta property=\"og:type\" content=\"video.other\">", [.ogVideo]),
   ("<meta property=\"og:video\" content=\"", [.ogVideo]),
   ("<meta property=\"og:type\" content=\"website\">", [.ogImage]),
   ("<meta property=\"og:image\" content=\"", [.ogImage]),
   ("<meta property=\"og:type\" content=\"music.song\">", [.ogAudio]),
   ("<meta property=\"og:audio\" content=\"", [.ogAudio]),
   (ogDescriptionTag, [.head]), (twitterCardTag, [.twitterCardOpen]),
   (sourceTag, [.playerVideo, .playerAudio]), (strongTag, [.uploaderLine, .tail]),
   (userIconTag, [.uploaderLine])]

/-- The tags of the table that the stretch `p` does not write. -/
def tagsAway (p : Part) : List (List Char) :=
  (tagTable.filter fun t => !t.2.contains p).map fun t => t.1.data

/-- Every stretch is clear of every tag of the table it does not write, checked
in one pass over the text of the template. -/
def tagTableClear : Bool :=
  Part.all.all fun p => p.nodes.all fun n =>
    match n with
    | .text s => noOpenings (tagsAway p) s.data
    | .action _ _ => true

/-- The value of `twitter:card` for a kind. -/
def cardOf : MediaKind → String
  | .video => "player"
  | .image => "summary_large_image"
  | .audio => "summary"
  | .other => "summary"

/-- The stretch that holds the value of `twitter:card` for a kind. -/
def cardPart : MediaKind → Part
  | .video => .cardPlayer
  | .image => .cardSummaryLargeImage
  | .audio => .cardSummary
  | .other => .cardSummary

instance (d : PageData) : Decidable d.OneKind := by
  unfold PageData.OneKind; exact inferInstance

instance (d : PageData) : Decidable d.SeveralKinds := by
  unfold PageData.SeveralKinds; exact inferInstance

/-- A string table with every key the player template looks up. -/
def englishTable : StringTable :=
  [("uploaded_by", "Uploaded by"), ("uploaded_at", "Uploaded at"),
   ("unsupported", "Unsupported"), ("download", "Download"),
   ("copy_link", "Copy link"), ("copied", "Copied"),
   ("open_in_new_tab", "Open in new tab"), ("powered_by", "Powered by")]

/-- A page for a video, with only `IsVideo` set. -/
def videoPage : PageData :=
  { ID := "abc", Filename := "clip.mp4", ContentType := "video/mp4", Size := 1024,
    IsVideo := true, IsAudio := false, IsImage := false, RawURL := "/raw/abc",
    Username := "bob", UploadedAt := ⟨2024, 3, 15, 9, 30, 0⟩, ServiceName := "TeleIRC",
    Lang := "en", T := englishTable, BaseURL := "" }

/-- A page with both `IsAudio` and `IsImage` set. -/
def audioImagePage : PageData :=
  { videoPage with IsVideo := false, IsAudio := true, IsImage := true }

/-- A page for a video whose string table has every key but `download`. -/
def videoNoDownload : PageData :=
  { videoPage with T := englishTable.filter fun kv => kv.1 != "download" }

/-- A page uploaded on the first day of the year 10000. -/
def year10000Page : PageData :=
  { ID := "abc", Filename := "clip.mp4", ContentType := "video/mp4", Size := 1024,
    IsVideo := true, IsAudio := false, IsImage := false, RawURL := "/raw/abc",
    Username := "bob", UploadedAt := ⟨10000, 1, 1, 0, 0, 0⟩, ServiceName := "TeleIRC",
    Lang := "en", T := englishTable, BaseURL := "" }

/-- The not-found data of the example: service `Acme`, language `en`. -/
def acmeNotFound : NotFoundData :=
  { ServiceName := "Acme", Lang := "en",
    T := [("not_found", "Not Found"), ("not_found_desc", "Gone")] }

/-- A page for an audio file whose MIME type holds a `+`. -/
def amrPage : PageData :=
  { ID := "abc", Filename := "voice.awb", ContentType := "audio/amr-wb+", Size := 1024,
    IsVideo := false, IsAudio := true, IsImage := false, RawURL := "/raw/abc",
    Username := "bob", UploadedAt := ⟨2024, 3, 15, 9, 30, 0⟩, ServiceName := "TeleIRC",
    Lang := "en", T := englishTable, BaseURL := "" }

/-! ## Execution never fails -/

theorem index_eq (m : StringTable) (key : String) :
    index m key = .ok (valueAt m key) := by
  unfold index valueAt
  cases m.lookup key <;> rfl

theorem Pipe.eval_eq {α : Type} (d : α) (p : Pipe α) : p.eval d = .ok (p.value d) := by
  cases p with
  | field get => rfl
  | index table key => exact index_eq _ _

theorem Node.exec_eq {α : Type} (d : α) (n : Node α) : n.exec d = .ok (n.render d) := by
  cases n with
  | text s => rfl
  | action pipe esc => simp only [Node.exec, Pipe.eval_eq, Node.render]

theorem execNodes_eq {α : Type} (d : α) (ns : List (Node α)) :
    execNodes d ns = .ok (renderNodes d ns) := by
  induction ns with
  | nil => rfl
  | cons n rest ih => simp only [execNodes, Node.exec_eq, ih, renderNodes]

theorem renderNodes_append {α : Type} (d : α) (as bs : List (Node α)) :
    renderNodes d (as ++ bs) = renderNodes d as ++ renderNodes d bs := by
  induction as with
  | nil => simp [renderNodes]
  | cons n rest ih => simp [renderNodes, ih, String.append_assoc]

/-- A stretch of consecutive nodes writes a stretch of the output. -/
theorem renderNodes_stretch {α : Type} (d : α) (pre frag post : List (Node α)) :
    Occurs (renderNodes d frag) (renderNodes d (pre ++ frag ++ post)) := by
  rw [renderNodes_append, renderNodes_append]
  exact ⟨(renderNodes d pre).data, (renderNodes d post).data, by simp [String.data_append]⟩

theorem Occurs.trans {a b c : String} (h1 : Occurs a b) (h2 : Occurs b c) : Occurs a c :=
  List.IsInfix.trans h1 h2

/-! ## Where a tag can occur in the output -/

theorem infix_of_occursIn (m : List Char) : ∀ s : List Char, occursIn m s = true → m <:+: s
  | [], h => by
    simp only [occursIn, List.isEmpty_iff] at h
    subst h; exact List.infix_refl _
  | c :: s, h => by
    simp only [occursIn, Bool.or_eq_true] at h
    rcases h with h | h
    · exact (List.isPrefixOf_iff_prefix.mp h).isInfix
    · exact (infix_of_occursIn m s h).trans (List.suffix_cons c s).isInfix

theorem noOpening_not_infix (m m' : List Char) (hm : m = '<' :: m') :
    ∀ s : List Char, noOpening m s = true → ¬ m <:+: s
  | [], _, h => by
    have := List.eq_nil_of_infix_nil h
    rw [hm] at this
    exact List.cons_ne_nil _ _ this
  | c :: s, hc, h => by
    simp only [noOpening, Bool.and_eq_true, Bool.or_eq_true, bne_iff_ne, ne_eq,
      Bool.not_eq_true'] at hc
    rw [List.infix_cons_iff] at h
    rcases h with h | h
    · have hpre := List.isPrefixOf_iff_prefix.mpr h
      have hcl : c = '<' := by
        rw [hm] at h
        obtain ⟨t, ht⟩ := h
        simp only [List.cons_append, List.cons.injEq] at ht
        exact ht.1.symm
      rcases hc.1 with h1 | h1
      · exact h1 hcl
      · rw [hpre] at h1
        exact Bool.noConfusion h1.1
    · exact noOpening_not_infix m m' hm s hc.2 h

theorem noOpening_not_straddle (m m' : List Char) (hm : m = '<' :: m') (k : Nat)
    (hk : 0 < k) :
    ∀ s : List Char, noOpening m s = true → ¬ m.take k <:+ s
  | [], _, h => by
    have h0 : m.take k = [] := List.eq_nil_of_suffix_nil h
    rw [hm] at h0
    cases k with
    | zero => omega
    | succ k => simp at h0
  | c :: s, hc, h => by
    simp only [noOpening, Bool.and_eq_true, Bool.or_eq_true, bne_iff_ne, ne_eq,
      Bool.not_eq_true'] at hc
    rw [List.suffix_cons_iff] at h
    rcases h with h | h
    · have hpre : (c :: s).isPrefixOf m = true := by
        rw [← h]
        exact List.isPrefixOf_iff_prefix.mpr (List.take_prefix k m)
      have hcl : c = '<' := by
        rw [hm] at h
        cases k with
        | zero => omega
        | succ k =>
          simp only [List.take_succ_cons, List.cons.injEq] at h
          exact h.1.symm
      rcases hc.1 with h1 | h1
      · exact h1 hcl
      · rw [hpre] at h1
        exact Bool.noConfusion h1.2
    · exact noOpening_not_straddle m m' hm k hk s hc.2 h

theorem noOpening_of_noOpenings (ms : List (List Char)) (m : List Char) (hm : m ∈ ms) :
    ∀ s : List Char, noOpenings ms s = true → noOpening m s = true
  | [], _ => rfl
  | c :: s, h => by
    simp only [noOpenings, Bool.and_eq_true, Bool.or_eq_true, List.all_eq_true] at h
    simp only [noOpening, Bool.and_eq_true, Bool.or_eq_true]
    refine ⟨?_, noOpening_of_noOpenings ms m hm s h.2⟩
    rcases h.1 with h1 | h1
    · exact Or.inl h1
    · exact Or.inr (by simpa using h1 m hm)

/-- An occurrence of `m` in `a ++ b` lies in `a`, lies in `b`, or begins at the
end of `a` and goes on in `b`. -/
theorem infix_append_cases (m a b : List Char) (h : m <:+: a ++ b) :
    m <:+: a ∨ m <:+: b ∨ ∃ k, 0 < k ∧ k < m.length ∧ m.take k <:+ a := by
  obtain ⟨s, t, hst⟩ := h
  rw [List.append_assoc, List.append_eq_append_iff] at hst
  rcases hst with ⟨a', ha, hb⟩ | ⟨c', hs, hmt⟩
  · rw [List.append_eq_append_iff] at hb
    rcases hb with ⟨m', hm, _⟩ | ⟨c, ha', hb'⟩
    · left; exact ⟨s, m', by rw [ha, hm, List.append_assoc]⟩
    · by_cases hc : c = []
      · left; subst hc; simp at ha'; subst ha'; exact ⟨s, [], by simp [ha]⟩
      by_cases ha0 : a' = []
      · right; left; subst ha0; simp at ha'; subst ha'
        exact ⟨[], t, by simpa using hb'.symm⟩
      · right; right
        refine ⟨a'.length, List.length_pos.mpr ha0, ?_, ?_⟩
        · rw [ha']; simp; exact List.length_pos.mpr hc
        · rw [ha', List.take_left']
          · exact ⟨s, ha.symm⟩
          · rfl
  · right; left
    exact ⟨c', t, by rw [hmt, List.append_assoc]⟩

/-! ## Escaped values hold no `<` -/

theorem htmlReplacementTable_some (r : Char) (repl : String)
    (h : htmlReplacementTable r = some repl) :
    ∀ c ∈ repl.data, c ≠ '<' ∧ c ≠ '>' ∧ c ≠ '"' ∧ c ≠ Char.ofNat 39 := by
  unfold htmlReplacementTable at h
  split_ifs at h
  all_goals first
    | (injection h with h; subst h; decide)

theorem htmlReplacementTable_none (r : Char) (h : htmlReplacementTable r = none) :
    r ≠ '<' ∧ r ≠ '>' ∧ r ≠ '"' ∧ r ≠ Char.ofNat 39 := by
  refine ⟨?_, ?_, ?_, ?_⟩ <;> (intro hr; subst hr; revert h; decide)

/-- The escaped text holds none of `<`, `>`, `"`, `'`. -/
theorem htmlReplacer_raw_free : ∀ s : List Char,
    ∀ c ∈ htmlReplacer s, c ≠ '<' ∧ c ≠ '>' ∧ c ≠ '"' ∧ c ≠ Char.ofNat 39
  | [] => by simp [htmlReplacer]
  | r :: rest => by
    have ih := htmlReplacer_raw_free rest
    unfold htmlReplacer
    split
    · rename_i repl h
      intro c hc
      rcases List.mem_append.mp hc with hc | hc
      · exact htmlReplacementTable_some r repl h c hc
      · exact ih c hc
    · rename_i h
      intro c hc
      rcases List.mem_cons.mp hc with hc | hc
      · rw [hc]; exact htmlReplacementTable_none r h
      · exact ih c hc

theorem htmlReplacer_no_lt (s : List Char) : '<' ∉ htmlReplacer s :=
  fun h => (htmlReplacer_raw_free s _ h).1 rfl

theorem digitChar_ne_lt (n : Nat) : Nat.digitChar (n % 16) ≠ '<' := by
  have h : n % 16 < 16 := Nat.mod_lt _ (by decide)
  generalize n % 16 = k at h
  interval_cases k <;> decide

theorem hex4_no_lt (n : Nat) : '<' ∉ "\\u".data ++ hex4 n := by
  simp only [hex4, List.mem_append, List.mem_cons, List.mem_nil_iff, or_false, not_or]
  exact ⟨by decide, Ne.symm (digitChar_ne_lt _), Ne.symm (digitChar_ne_lt _),
    Ne.symm (digitChar_ne_lt _), Ne.symm (digitChar_ne_lt _)⟩

theorem jsStrReplacement_some (r : Char) (repl : List Char)
    (h : jsStrReplacement r = some repl) : '<' ∉ repl := by
  unfold jsStrReplacement at h
  simp only at h
  split_ifs at h
  all_goals first
    | (injection h with h; subst h; exact hex4_no_lt _)
    | (injection h with h; subst h; decide)

theorem jsStrReplacement_none (r : Char) (h : jsStrReplacement r = none) : r ≠ '<' := by
  intro hr
  subst hr
  revert h
  decide

theorem jsReplace_no_lt : ∀ s : List Char, '<' ∉ jsReplace s
  | [] => by simp [jsReplace]
  | r :: rest => by
    have ih := jsReplace_no_lt rest
    unfold jsReplace
    split
    · rename_i repl h
      simp only [List.mem_append, not_or]
      exact ⟨jsStrReplacement_some r repl h, ih⟩
    · rename_i h
      simp only [List.mem_cons, not_or]
      exact ⟨Ne.symm (jsStrReplacement_none r h), ih⟩

theorem Escaper.apply_no_lt (e : Escaper) (v : String) : '<' ∉ (e.apply v).data := by
  cases e
  · exact htmlReplacer_no_lt _
  · exact htmlReplacer_no_lt _
  · exact htmlReplacer_no_lt _
  · exact htmlReplacer_no_lt _
  · exact jsReplace_no_lt _

/-- A tag that begins with `<` does not occur in the text written by nodes that
are all clear of it. -/
theorem not_infix_of_clearOf {α : Type} (d : α) (m : String) (m' : List Char)
    (hm : m.data = '<' :: m') :
    ∀ ns : List (Node α), clearOf m ns = true → ¬ m.data <:+: (renderNodes d ns).data
  | [], _ => by
    intro h
    have := List.eq_nil_of_infix_nil h
    rw [hm] at this
    exact List.cons_ne_nil _ _ this
  | n :: rest, hc => by
    simp only [clearOf, List.all_cons, Bool.and_eq_true] at hc
    have ih := not_infix_of_clearOf d m m' hm rest hc.2
    intro h
    simp only [renderNodes, String.data_append] at h
    rcases infix_append_cases _ _ _ h with h1 | h2 | ⟨k, hk, _, hs⟩
    · cases n with
      | text s => exact noOpening_not_infix _ m' hm _ hc.1 h1
      | action pipe esc =>
        apply Escaper.apply_no_lt esc (pipe.value d)
        have hsub := h1.subset
        exact hsub (by rw [hm]; exact List.mem_cons_self _ _)
    · exact ih h2
    · cases n with
      | text s => exact noOpening_not_straddle _ m' hm k hk _ hc.1 hs
      | action pipe esc =>
        apply Escaper.apply_no_lt esc (pipe.value d)
        have hsub := hs.subset
        apply hsub
        rw [hm]
        cases k with
        | zero => omega
        | succ k => simp

/-! ## The player template, stretch by stretch -/

theorem playerTemplateHTML_parts (d : PageData) :
    playerTemplateHTML d = (playerParts d).flatMap Part.nodes := by
  unfold playerTemplateHTML playerParts partsFor partsAfterHead partsAfterCard
  cases d.IsVideo <;> cases d.IsAudio <;> cases d.IsImage <;> cases isTrue d.Username <;>
    simp [Part.nodes, List.flatMap]

theorem PlayerTemplate_eq (d : PageData) :
    PlayerTemplate d = .ok (renderNodes d ((playerParts d).flatMap Part.nodes)) := by
  unfold PlayerTemplate
  rw [execNodes_eq, playerTemplateHTML_parts]

theorem clearOf_append {α : Type} (m : String) (as bs : List (Node α)) :
    clearOf m (as ++ bs) = (clearOf m as && clearOf m bs) := by
  simp [clearOf, List.all_append]

theorem clearOf_flatMap (m : String) (ps : List Part) :
    clearOf m (ps.flatMap Part.nodes) = ps.all fun p => clearOf m p.nodes := by
  induction ps with
  | nil => rfl
  | cons p rest ih => simp [List.flatMap_cons, clearOf_append, ih]

theorem Part.mem_all (p : Part) : p ∈ Part.all := by
  cases p <;> decide

theorem clearOf_of_onlyIn (m : String) (homes : List Part) (h : onlyIn m homes = true)
    (p : Part) (hp : p ∉ homes) : clearOf m p.nodes = true := by
  simp only [onlyIn, List.all_eq_true, Bool.or_eq_true] at h
  rcases h p (Part.mem_all p) with h | h
  · exact absurd (by simpa using h) hp
  · exact h

theorem clearOf_parts (m : String) (homes : List Part) (h : onlyIn m homes = true)
    (ps : List Part) (hps : ∀ p ∈ ps, p ∉ homes) :
    clearOf m (ps.flatMap Part.nodes) = true := by
  rw [clearOf_flatMap, List.all_eq_true]
  intro p hp
  exact clearOf_of_onlyIn m homes h p (hps p hp)

/-- A tag that begins with `<` and stays out of every stretch the execution
walks does not occur in the page. -/
theorem absent_of_onlyIn (d : PageData) (m : String) (m' : List Char)
    (hm : m.data = '<' :: m') (homes : List Part) (h : onlyIn m homes = true)
    (hd : ∀ p ∈ playerParts d, p ∉ homes) :
    ¬ Occurs m (renderNodes d ((playerParts d).flatMap Part.nodes)) :=
  not_infix_of_clearOf d m m' hm _ (clearOf_parts m homes h _ hd)

/-- A stretch the execution walks is written into the page. -/
theorem part_occurs (d : PageData) (p : Part) (hp : p ∈ playerParts d) :
    Occurs (renderNodes d p.nodes) (renderNodes d ((playerParts d).flatMap Part.nodes)) := by
  obtain ⟨L, R, hLR⟩ := List.append_of_mem hp
  rw [hLR]
  have : (L ++ p :: R).flatMap Part.nodes =
      L.flatMap Part.nodes ++ p.nodes ++ R.flatMap Part.nodes := by
    simp [List.flatMap_append, List.flatMap_cons]
  rw [this]
  exact renderNodes_stretch d _ _ _

theorem tail_mem (v a i u : Bool) : Part.tail ∈ partsFor v a i u := by
  cases v <;> cases a <;> cases i <;> cases u <;> decide

theorem head_mem (v a i u : Bool) : Part.head ∈ partsFor v a i u := by
  cases v <;> cases a <;> cases i <;> cases u <;> decide

theorem info_mem (v a i u : Bool) : Part.info ∈ partsFor v a i u := by
  cases v <;> cases a <;> cases i <;> cases u <;> decide

/-- A stretch of consecutive nodes of a part the execution walks is written
into the page. -/
theorem occurs_in_part (d : PageData) (p : Part) (hp : p ∈ playerParts d)
    (pre frag post : List (Node PageData)) (h : p.nodes = pre ++ frag ++ post) :
    Occurs (renderNodes d frag) (renderNodes d ((playerParts d).flatMap Part.nodes)) := by
  have h1 := part_occurs d p hp
  rw [h] at h1
  exact (renderNodes_stretch d pre frag post).trans h1

/-- Text of a text node occurs in what the node list writes. -/
theorem text_occurs {α : Type} (d : α) (m : String) (ns : List (Node α))
    (h : (ns.any fun n => match n with
      | .text s => occursIn m.data s.data
      | .action _ _ => false) = true) :
    Occurs m (renderNodes d ns) := by
  induction ns with
  | nil => simp at h
  | cons n rest ih =>
    simp only [List.any_cons, Bool.or_eq_true] at h
    simp only [renderNodes, Occurs, String.data_append]
    rcases h with h | h
    · cases n with
      | text s =>
        exact (infix_of_occursIn _ _ h).trans (List.prefix_append _ _).isInfix
      | action pipe esc => simp at h
    · exact (ih h).trans (List.suffix_append _ _).isInfix

theorem partsFor_nodup : ∀ v a i u : Bool, (partsFor v a i u).Nodup := by decide

/-- A tag written by one stretch of nodes inside one part, and by nothing else
the execution walks, splits the page in a text before it and a text after it
that are both free of the tag. -/
theorem unique_at (d : PageData) (m : String) (m' : List Char)
    (hm : m.data = '<' :: m') (L R : List Part) (p : Part)
    (hparts : playerParts d = L ++ p :: R)
    (pre frag post : List (Node PageData))
    (hp : p.nodes = pre ++ frag ++ post)
    (hpre : clearOf m pre = true) (hpost : clearOf m post = true)
    (homes : List Part) (hhome : onlyIn m homes = true)
    (hL : ∀ q ∈ L, q ∉ homes) (hR : ∀ q ∈ R, q ∉ homes) :
    PlayerTemplate d = .ok (renderNodes d (L.flatMap Part.nodes ++ pre) ++
      renderNodes d frag ++ renderNodes d (post ++ R.flatMap Part.nodes)) ∧
    ¬ Occurs m (renderNodes d (L.flatMap Part.nodes ++ pre)) ∧
    ¬ Occurs m (renderNodes d (post ++ R.flatMap Part.nodes)) := by
  refine ⟨?_, ?_, ?_⟩
  · rw [PlayerTemplate_eq, hparts]
    congr 1
    simp only [List.flatMap_append, List.flatMap_cons, hp, renderNodes_append,
      String.append_assoc]
  · apply not_infix_of_clearOf d m m' hm
    rw [clearOf_append, clearOf_parts m homes hhome L hL, hpre]; rfl
  · apply not_infix_of_clearOf d m m' hm
    rw [clearOf_append, clearOf_parts m homes hhome R hR, hpost]; rfl

/-- The same, when the part is known only to be among those walked. -/
theorem unique_in_part (d : PageData) (m : String) (m' : List Char)
    (hm : m.data = '<' :: m') (p : Part) (pre frag post : List (Node PageData))
    (hp : p.nodes = pre ++ frag ++ post)
    (hpre : clearOf m pre = true) (hpost : clearOf m post = true)
    (homes : List Part) (hhome : onlyIn m homes = true)
    (hmem : p ∈ playerParts d)
    (hothers : ∀ q ∈ playerParts d, q ∈ homes → q = p) :
    ∃ A B : String, PlayerTemplate d = .ok (A ++ renderNodes d frag ++ B) ∧
      ¬ Occurs m A ∧ ¬ Occurs m B := by
  have hnd : (playerParts d).Nodup := partsFor_nodup _ _ _ _
  obtain ⟨L, R, hLR⟩ := List.append_of_mem hmem
  rw [hLR] at hnd hothers
  have hpL : p ∉ L := fun h => by
    have := (List.nodup_append.mp hnd).2.2
    exact this h (List.mem_cons_self _ _)
  have hpR : p ∉ R := ((List.nodup_cons.mp (List.nodup_append.mp hnd).2.1).1)
  have hL : ∀ q ∈ L, q ∉ homes := fun q hq hh => by
    have := hothers q (List.mem_append_left _ hq) hh
    exact hpL (this ▸ hq)
  have hR : ∀ q ∈ R, q ∉ homes := fun q hq hh => by
    have := hothers q (List.mem_append_right _ (List.mem_cons_of_mem _ hq)) hh
    exact hpR (this ▸ hq)
  exact ⟨_, _, unique_at d m m' hm L R p hLR pre frag post hp hpre hpost homes hhome hL hR⟩

/-- A part is its first `i` nodes, the next `n` nodes, and the rest. -/
theorem nodes_split (p : Part) (i n : Nat) :
    p.nodes = p.nodes.take i ++ (p.nodes.drop i).take n ++ (p.nodes.drop i).drop n := by
  rw [List.append_assoc, List.take_append_drop, List.take_append_drop]

theorem render3 {α : Type} (d : α) (a b : String) (pipe : Pipe α) (esc : Escaper) :
    renderNodes d [Node.text a, Node.action pipe esc, Node.text b] =
      a ++ esc.apply (pipe.value d) ++ b := by
  simp [renderNodes, Node.render, String.append_assoc]

theorem render5 {α : Type} (d : α) (a b c : String) (pipe1 pipe2 : Pipe α)
    (esc1 esc2 : Escaper) :
    renderNodes d [Node.text a, Node.action pipe1 esc1, Node.text b,
      Node.action pipe2 esc2, Node.text c] =
      a ++ esc1.apply (pipe1.value d) ++ b ++ esc2.apply (pipe2.value d) ++ c := by
  simp [renderNodes, Node.render, String.append_assoc]

theorem Occurs.of_append_right {m a b : String} (h : ¬ Occurs m (a ++ b)) : ¬ Occurs m b :=
  fun hb => h (by
    unfold Occurs at hb ⊢
    rw [String.data_append]
    exact hb.trans (List.suffix_append _ _).isInfix)

theorem isTrue_eq_false_iff (s : String) : isTrue s = false ↔ s = "" := by
  unfold isTrue
  constructor
  · intro h
    have : s.data = [] := by simpa using h
    exact String.ext this
  · intro h
    subst h
    rfl

theorem eq_nil_of_not_mem_tail {x : Char} {X pre c : List Char}
    (h : X = pre ++ x :: c) (hx : x ∉ X.tail) : pre = [] := by
  cases pre with
  | nil => rfl
  | cons y pre' =>
    exfalso
    apply hx
    rw [h]
    simp

/-- In an escaped text every `&` begins one of the references the escaper
writes. -/
theorem htmlReplacer_ampersand : ∀ s pre post : List Char,
    htmlReplacer s = pre ++ '&' :: post →
    ∃ ent ∈ ["amp;", "lt;", "gt;", "#34;", "#39;", "#43;"], ent.data <+: post
  | [], pre, post, h => by
    simp [htmlReplacer] at h
  | r :: rest, pre, post, h => by
    have key : ∀ X : List Char, X ++ htmlReplacer rest = pre ++ '&' :: post →
        (∀ p c, X = p ++ '&' :: c →
          ∃ ent ∈ ["amp;", "lt;", "gt;", "#34;", "#39;", "#43;"], ent.data = c) →
        ∃ ent ∈ ["amp;", "lt;", "gt;", "#34;", "#39;", "#43;"], ent.data <+: post := by
      intro X hX hXc
      rw [List.append_eq_append_iff] at hX
      rcases hX with ⟨a', hpre, hE⟩ | ⟨c', hXp, hpost⟩
      · exact htmlReplacer_ampersand rest a' post hE
      · cases c' with
        | nil =>
          simp only [List.nil_append] at hpost
          exact htmlReplacer_ampersand rest [] post hpost.symm
        | cons x c'' =>
          simp only [List.cons_append, List.cons.injEq] at hpost
          obtain ⟨hx, hpost⟩ := hpost
          subst hx
          obtain ⟨ent, hent, he⟩ := hXc pre c'' hXp
          exact ⟨ent, hent, by rw [hpost, he]; exact List.prefix_append _ _⟩
    unfold htmlReplacer at h
    split at h
    · rename_i repl hr
      apply key repl.data h
      intro p c hpc
      unfold htmlReplacementTable at hr
      split_ifs at hr
      all_goals
        injection hr with hr
        subst hr
        have hp := eq_nil_of_not_mem_tail hpc (by decide)
        subst hp
        simp only [List.nil_append] at hpc
        injection hpc with hh hc
        first
          | exact absurd hh (by decide)
          | exact ⟨_, by simp, hc⟩
    · rename_i hr
      apply key [r] h
      intro p c hpc
      have hp := eq_nil_of_not_mem_tail hpc (by simp)
      subst hp
      simp only [List.nil_append, List.cons.injEq] at hpc
      obtain ⟨hr', _⟩ := hpc
      subst hr'
      exact absurd hr (by decide)

/-- Escaping works rune by rune. -/
theorem htmlReplacer_flatMap (s : List Char) :
    htmlReplacer s = s.flatMap fun c =>
      match htmlReplacementTable c with
      | some repl => repl.data
      | none => [c] := by
  induction s with
  | nil => rfl
  | cons r rest ih =>
    rw [List.flatMap_cons, ← ih]
    show (match htmlReplacementTable r with
      | some repl => repl.data ++ htmlReplacer rest
      | none => r :: htmlReplacer rest) = _
    cases htmlReplacementTable r <;> rfl

/-- A text with no rune of the table is written unchanged. -/
theorem htmlReplacer_plain (s : List Char) (h : ∀ c ∈ s, htmlReplacementTable c = none) :
    htmlReplacer s = s := by
  induction s with
  | nil => rfl
  | cons r rest ih =>
    unfold htmlReplacer
    rw [h r (List.mem_cons_self _ _), ih fun c hc => h c (List.mem_cons_of_mem _ hc)]

/-- The stretch of `n` nodes from node `i` of a part the execution walks is
written into the page. -/
theorem occurs_stretch (d : PageData) (p : Part) (hp : p ∈ playerParts d) (i n : Nat) :
    Occurs (renderNodes d ((p.nodes.drop i).take n))
      (renderNodes d ((playerParts d).flatMap Part.nodes)) := by
  apply occurs_in_part d p hp (p.nodes.take i) _ ((p.nodes.drop i).drop n)
  rw [List.append_assoc, List.take_append_drop, List.take_append_drop]

theorem head_title : (Part.head.nodes.drop 7).take 5 =
    [Node.text "    <title>",
      Node.action (Pipe.field PageData.Filename) Escaper.rcdata,
      Node.text " - ",
      Node.action (Pipe.field PageData.ServiceName) Escaper.rcdata,
      Node.text "</title>\n"] := rfl

theorem head_ogTitle : (Part.head.nodes.drop 14).take 3 =
    [Node.text "    <meta property=\"og:title\" content=\"",
      Node.action (Pipe.field PageData.Filename) Escaper.attr,
      Node.text "\">\n"] := rfl

theorem info_heading : (Part.info.nodes.drop 7).take 5 =
    [Node.text "                    <h1 class=\"text-xl font-semibold truncate\" title=\"",
      Node.action (Pipe.field PageData.Filename) Escaper.attr,
      Node.text "\">",
      Node.action (Pipe.field PageData.Filename) Escaper.html,
      Node.text "</h1>\n"] := rfl

theorem image_alt : (Part.playerImage.nodes.drop 4).take 5 =
    [Node.text "                        <img src=\"",
      Node.action (Pipe.field PageData.RawURL) Escaper.urlAttr,
      Node.text "\" alt=\"",
      Node.action (Pipe.field PageData.Filename) Escaper.attr,
      Node.text "\" class=\"media-image w-full\" loading=\"eager\">\n"] := rfl

theorem tail_download : (Part.tail.nodes.drop 15).take 5 =
    [Node.text "                        <a href=\"",
      Node.action (Pipe.field PageData.RawURL) Escaper.urlAttr,
      Node.text "\" download=\"",
      Node.action (Pipe.field PageData.Filename) Escaper.attr,
      Node.text "\"\n"] := rfl

theorem head_ogDescription : (Part.head.nodes.drop 17).take 5 =
    [Node.text "    <meta property=\"og:description\" content=\"",
      Node.action (Pipe.index PageData.T "uploaded_by") Escaper.attr,
      Node.text " ",
      Node.action (Pipe.field PageData.Username) Escaper.attr,
      Node.text "\">\n"] := rfl

theorem tail_uploadTime : (Part.tail.nodes.drop 5).take 5 =
    [Node.text "                            <span>",
      Node.action (Pipe.index PageData.T "uploaded_at") Escaper.html,
      Node.text " <strong class=\"text-gray-900 dark:text-gray-100\">",
      Node.action (Pipe.field fun d => d.UploadedAt.Format) Escaper.html,
      Node.text "</strong></span>\n"] := rfl

theorem uploader_span : (Part.uploaderLine.nodes.drop 5).take 5 =
    [Node.text "                            <span>",
      Node.action (Pipe.index PageData.T "uploaded_by") Escaper.html,
      Node.text " <strong class=\"text-gray-900 dark:text-gray-100\">",
      Node.action (Pipe.field PageData.Username) Escaper.html,
      Node.text "</strong></span>\n"] := rfl

theorem video_source : (Part.playerVideo.nodes.drop 2).take 5 =
    [Node.text "                        <source src=\"",
      Node.action (Pipe.field PageData.RawURL) Escaper.urlAttr,
      Node.text "\" type=\"",
      Node.action (Pipe.field PageData.ContentType) Escaper.attr,
      Node.text "\">\n"] := rfl

theorem audio_source : (Part.playerAudio.nodes.drop 8).take 5 =
    [Node.text "                            <source src=\"",
      Node.action (Pipe.field PageData.RawURL) Escaper.urlAttr,
      Node.text "\" type=\"",
      Node.action (Pipe.field PageData.ContentType) Escaper.attr,
      Node.text "\">\n"] := rfl

theorem ogVideo_type : (Part.ogVideo.nodes.drop 5).take 3 =
    [Node.text "    <meta property=\"og:video:type\" content=\"",
      Node.action (Pipe.field PageData.ContentType) Escaper.attr,
      Node.text "\">\n"] := rfl

theorem notFound_html : (notFoundPage.drop 1).take 3 =
    [Node.text "<html lang=\"",
      Node.action (Pipe.field NotFoundData.Lang) Escaper.attr,
      Node.text "\">\n"] := rfl

theorem notFound_heading : (notFoundPage.drop 39).take 3 =
    [Node.text "        <h1 class=\"text-3xl font-bold mb-2\">",
      Node.action (Pipe.index NotFoundData.T "not_found") Escaper.html,
      Node.text "</h1>\n"] := rfl

theorem notFound_paragraph : (notFoundPage.drop 42).take 3 =
    [Node.text "        <p class=\"text-gray-600 dark:text-gray-400 mb-8\">",
      Node.action (Pipe.index NotFoundData.T "not_found_desc") Escaper.html,
      Node.text "</p>\n"] := rfl

theorem notFound_link : (notFoundPage.drop 45).take 8 =
    [Node.text "        <a href=\"/\" class=\"inline-flex items-center gap-2 px-6 py-3 bg-primary-600 hover:bg-primary-700 text-white font-medium rounded-lg transition-colors\">\n",
      Node.text "            <svg class=\"w-5 h-5\" fill=\"none\" stroke=\"currentColor\" viewBox=\"0 0 24 24\">\n",
      Node.text "                <path stroke-linecap=\"round\" stroke-linejoin=\"round\" stroke-width=\"2\" d=\"M3 12l2-2m0 0l7-7 7 7M5 10v10a1 1 0 001 1h3m10-11l2 2m-2-2v10a1 1 0 01-1 1h-3m-6 0a1 1 0 001-1v-4a1 1 0 011-1h2a1 1 0 011 1v4a1 1 0 001 1m-6 0h6\"/>\n",
      Node.text "            </svg>\n",
      Node.text "            ",
      Node.action (Pipe.field NotFoundData.ServiceName) Escaper.html,
      Node.text "\n",
      Node.text "        </a>\n"] := rfl

/-! ## Where the tags stand in the template text -/

set_option maxRecDepth 1000000 in
set_option maxHeartbeats 4000000 in
/-- One computation over the whole text of the player template. -/
theorem tagTable_clear : tagTableClear = true := by decide!

theorem onlyIn_of_table (m : String) (homes : List Part) (h : (m, homes) ∈ tagTable) :
    onlyIn m homes = true := by
  have hc := tagTable_clear
  simp only [tagTableClear, List.all_eq_true] at hc
  simp only [onlyIn, List.all_eq_true, Bool.or_eq_true]
  intro p hp
  by_cases hh : homes.contains p = true
  · exact Or.inl hh
  · right
    simp only [clearOf, List.all_eq_true]
    intro n hn
    have hpn := hc p hp n hn
    cases n with
    | text s =>
      apply noOpening_of_noOpenings (tagsAway p) _ _ _ hpn
      simp only [tagsAway, List.mem_map, List.mem_filter]
      exact ⟨(m, homes), ⟨h, by simpa using hh⟩, rfl⟩
    | action pipe esc => rfl

theorem playerTag_home (k : MediaKind) : onlyIn (playerTag k) [playerPart k] = true := by
  apply onlyIn_of_table
  cases k <;> decide

theorem ogTags_home (k : MediaKind) :
    ((ogTags k).all fun m => onlyIn m (ogParts k)) = true := by
  rw [List.all_eq_true]
  intro m hm
  apply onlyIn_of_table
  cases k <;> simp only [ogTags, List.mem_cons, List.mem_singleton, List.not_mem_nil,
    or_false] at hm
  all_goals first
    | exact absurd hm id
    | (rcases hm with rfl | rfl <;> decide)

theorem ogDescription_home : onlyIn ogDescriptionTag [.head] = true :=
  onlyIn_of_table _ _ (by decide)

theorem twitterCard_home : onlyIn twitterCardTag [.twitterCardOpen] = true :=
  onlyIn_of_table _ _ (by decide)

theorem source_home : onlyIn sourceTag [.playerVideo, .playerAudio] = true :=
  onlyIn_of_table _ _ (by decide)

theorem strong_home : onlyIn strongTag [.uploaderLine, .tail] = true :=
  onlyIn_of_table _ _ (by decide)

theorem userIcon_home : onlyIn userIconTag [.uploaderLine] = true :=
  onlyIn_of_table _ _ (by decide)

/-! ## Which fragment and which Open Graph block a page holds -/

theorem playerFragment_nodes (k : MediaKind) : playerFragment k = (playerPart k).nodes := by
  cases k <;> rfl

theorem ogBlock_nodes (k : MediaKind) : ogBlock k = (ogParts k).flatMap Part.nodes := by
  cases k <;> simp [ogBlock, ogParts, Part.nodes, List.flatMap]

theorem playerTag_head (k : MediaKind) : ∃ m', (playerTag k).data = '<' :: m' := by
  cases k <;> exact ⟨_, rfl⟩

theorem ogTags_head (k : MediaKind) (m : String) (hm : m ∈ ogTags k) :
    ∃ m', m.data = '<' :: m' := by
  cases k <;> simp only [ogTags, List.mem_cons, List.mem_singleton, List.not_mem_nil,
    or_false] at hm
  all_goals first
    | exact absurd hm id
    | (rcases hm with rfl | rfl <;> exact ⟨_, rfl⟩)

set_option maxRecDepth 100000 in
theorem playerTag_in_fragment (d : PageData) (k : MediaKind) :
    Occurs (playerTag k) (renderNodes d (playerFragment k)) := by
  apply text_occurs
  cases k <;> decide!

set_option maxRecDepth 100000 in
theorem ogTags_in_block (d : PageData) (k : MediaKind) (m : String) (hm : m ∈ ogTags k) :
    Occurs m (renderNodes d (ogBlock k)) := by
  apply text_occurs
  cases k <;> simp only [ogTags, List.mem_cons, List.mem_singleton, List.not_mem_nil,
    or_false] at hm
  all_goals first
    | exact absurd hm id
    | (rcases hm with rfl | rfl <;> decide!)

theorem playerPart_mem (v a i u : Bool) :
    playerPart (kindVideoAudioImage v a i) ∈ partsFor v a i u := by
  cases v <;> cases a <;> cases i <;> cases u <;> decide

theorem playerPart_other (v a i u : Bool) (k : MediaKind)
    (hk : k ≠ kindVideoAudioImage v a i) :
    ∀ p ∈ partsFor v a i u, p ∉ [playerPart k] := by
  revert hk
  cases v <;> cases a <;> cases i <;> cases u <;> cases k <;> decide

theorem ogParts_sub (v a i u : Bool) :
    ∃ L R, partsFor v a i u = L ++ ogParts (kindVideoImageAudio v a i) ++ R := by
  refine ⟨[.head], [.twitterCardOpen] ++
    [if v then .cardPlayer else if i then .cardSummaryLargeImage else .cardSummary] ++
    partsAfterCard v a i u, ?_⟩
  cases v <;> cases a <;> cases i <;> rfl

theorem ogParts_other (v a i u : Bool) (k : MediaKind)
    (hk : k ≠ kindVideoImageAudio v a i) :
    ∀ p ∈ partsFor v a i u, p ∉ ogParts k := by
  revert hk
  cases v <;> cases a <;> cases i <;> cases u <;> cases k <;> decide

/-- The player fragment of a page is the one of the first flag set in the order
video, audio, image; its Open Graph block is the one of the first flag set in
the order video, image, audio; the tags of the other kinds do not occur. -/
theorem kinds_of_page (d : PageData) :
    ∃ out frag og : String, PlayerTemplate d = .ok out ∧
      execNodes d (playerFragment d.firstVideoAudioImage) = .ok frag ∧
      Occurs frag out ∧
      Occurs (playerTag d.firstVideoAudioImage) out ∧
      (∀ k, k ≠ d.firstVideoAudioImage → ¬ Occurs (playerTag k) out) ∧
      execNodes d (ogBlock d.firstVideoImageAudio) = .ok og ∧
      Occurs og out ∧
      (∀ m ∈ ogTags d.firstVideoImageAudio, Occurs m out) ∧
      (∀ k, k ≠ d.firstVideoImageAudio → ∀ m ∈ ogTags k, ¬ Occurs m out) := by
  have hfrag : Occurs (renderNodes d (playerFragment d.firstVideoAudioImage))
      (renderNodes d ((playerParts d).flatMap Part.nodes)) := by
    rw [playerFragment_nodes]
    exact part_occurs d _ (playerPart_mem _ _ _ _)
  have hog : Occurs (renderNodes d (ogBlock d.firstVideoImageAudio))
      (renderNodes d ((playerParts d).flatMap Part.nodes)) := by
    obtain ⟨L, R, hLR⟩ := ogParts_sub d.IsVideo d.IsAudio d.IsImage (isTrue d.Username)
    unfold playerParts
    rw [hLR, ogBlock_nodes]
    simp only [List.flatMap_append]
    exact renderNodes_stretch d _ _ _
  refine ⟨_, _, _, PlayerTemplate_eq d, execNodes_eq d _, hfrag,
    (playerTag_in_fragment d _).trans hfrag, ?_, execNodes_eq d _, hog,
    fun m hm => (ogTags_in_block d _ m hm).trans hog, ?_⟩
  · intro k hk
    obtain ⟨m', hm'⟩ := playerTag_head k
    exact absent_of_onlyIn d _ m' hm' _ (playerTag_home k) (playerPart_other _ _ _ _ k hk)
  · intro k hk m hm
    obtain ⟨m', hm'⟩ := ogTags_head k m hm
    have hh := ogTags_home k
    rw [List.all_eq_true] at hh
    exact absent_of_onlyIn d _ m' hm' _ (hh m hm) (ogParts_other _ _ _ _ k hk)

/-! ## C1, C2: the player fragment and the Open Graph block -/

/-- C1. For every page data with exactly one media kind (only `IsVideo`, only
`IsAudio`, only `IsImage`, or no flag set, which is `other`), executing the
player template succeeds and the page holds the player fragment of that kind
(`<video>`, `<audio>`, linked `<img>`, or the placeholder for unsupported media)
and the Open Graph block of that same kind (video: `og:type` `video.other` with
`og:video` and `og:video:type`; image: `og:type` `website` with `og:image`;
audio: `og:type` `music.song` with `og:audio`; other: no block), with their
tags; the opening tag of the player fragment of every other kind and the
`og:type` and media tags of every other kind occur nowhere in the page. -/
theorem one_kind_one_fragment_one_og_block (d : PageData) (h : d.OneKind) :
    ∃ out frag og : String, PlayerTemplate d = .ok out ∧
      execNodes d (playerFragment d.firstVideoAudioImage) = .ok frag ∧
      Occurs frag out ∧
      Occurs (playerTag d.firstVideoAudioImage) out ∧
      execNodes d (ogBlock d.firstVideoAudioImage) = .ok og ∧
      Occurs og out ∧
      (∀ m ∈ ogTags d.firstVideoAudioImage, Occurs m out) ∧
      (∀ k, k ≠ d.firstVideoAudioImage →
        ¬ Occurs (playerTag k) out ∧ ∀ m ∈ ogTags k, ¬ Occurs m out) := by
  have hk : d.firstVideoImageAudio = d.firstVideoAudioImage := by
    unfold PageData.OneKind at h
    unfold PageData.firstVideoImageAudio PageData.firstVideoAudioImage
    revert h
    cases d.IsVideo <;> cases d.IsAudio <;> cases d.IsImage <;> decide
  obtain ⟨out, frag, og, h1, h2, h3, h4, h5, h6, h7, h8, h9⟩ := kinds_of_page d
  rw [hk] at h6 h8 h9
  exact ⟨out, frag, og, h1, h2, h3, h4, h6, h7, h8, fun k hk' => ⟨h5 k hk', h9 k hk'⟩⟩

/-- C1, at a page with only `IsVideo` set: the `<video>` fragment and the video
Open Graph block are in the page, no tag of another kind is. -/
theorem one_kind_one_fragment_one_og_block_video :
    videoPage.OneKind ∧
    ∃ out frag og : String, PlayerTemplate videoPage = .ok out ∧
      execNodes videoPage playerVideo = .ok frag ∧ Occurs frag out ∧
      Occurs "<video" out ∧
      execNodes videoPage ogVideo = .ok og ∧ Occurs og out ∧
      (∀ m ∈ ogTags .video, Occurs m out) ∧
      (∀ k, k ≠ MediaKind.video →
        ¬ Occurs (playerTag k) out ∧ ∀ m ∈ ogTags k, ¬ Occurs m out) :=
  ⟨by decide, one_kind_one_fragment_one_og_block videoPage (by decide)⟩

/-- C2, refuted as stated: with `IsAudio` and `IsImage` set and `IsVideo` clear
the player fragment is the audio one, but the Open Graph block is the image
one; no audio Open Graph tag is in the page. -/
theorem audio_image_page_has_image_og_block :
    audioImagePage.SeveralKinds ∧
    ∃ out : String, PlayerTemplate audioImagePage = .ok out ∧
      Occurs "<audio" out ∧
      Occurs "<meta property=\"og:image\" content=\"" out ∧
      ¬ Occurs "<meta property=\"og:audio\" content=\"" out ∧
      ¬ Occurs "<meta property=\"og:type\" content=\"music.song\">" out := by
  obtain ⟨out, frag, og, h1, _, _, h4, _, _, _, h8, h9⟩ := kinds_of_page audioImagePage
  refine ⟨by decide, out, h1, h4, h8 _ (by decide), ?_, ?_⟩
  · exact h9 .audio (by decide) _ (by decide)
  · exact h9 .audio (by decide) _ (by decide)

/-- C2, amended. For every page data with more than one of the three flags set,
the player fragment is the one of the first flag set in the order video, audio,
image, and the Open Graph block is the one of the first flag set in the order
video, image, audio; the tags of the player fragments of the other kinds and the
Open Graph tags of the other kinds occur nowhere in the page. -/
theorem several_kinds_two_priorities (d : PageData) (h : d.SeveralKinds) :
    ∃ out frag og : String, PlayerTemplate d = .ok out ∧
      execNodes d (playerFragment d.firstVideoAudioImage) = .ok frag ∧
      Occurs frag out ∧
      Occurs (playerTag d.firstVideoAudioImage) out ∧
      (∀ k, k ≠ d.firstVideoAudioImage → ¬ Occurs (playerTag k) out) ∧
      execNodes d (ogBlock d.firstVideoImageAudio) = .ok og ∧
      Occurs og out ∧
      (∀ m ∈ ogTags d.firstVideoImageAudio, Occurs m out) ∧
      (∀ k, k ≠ d.firstVideoImageAudio → ∀ m ∈ ogTags k, ¬ Occurs m out) ∧
      (d.IsVideo = false →
        d.firstVideoAudioImage = .audio ∧ d.firstVideoImageAudio = .image) := by
  obtain ⟨out, frag, og, h1, h2, h3, h4, h5, h6, h7, h8, h9⟩ := kinds_of_page d
  refine ⟨out, frag, og, h1, h2, h3, h4, h5, h6, h7, h8, h9, ?_⟩
  unfold PageData.SeveralKinds at h
  unfold PageData.firstVideoImageAudio PageData.firstVideoAudioImage
  revert h
  cases d.IsVideo <;> cases d.IsAudio <;> cases d.IsImage <;> decide

/-- C2 amended, at the page with `IsAudio` and `IsImage` set: audio player,
image Open Graph block. -/
theorem several_kinds_two_priorities_audio_image :
    audioImagePage.SeveralKinds ∧
    ∃ out frag og : String, PlayerTemplate audioImagePage = .ok out ∧
      execNodes audioImagePage playerAudio = .ok frag ∧ Occurs frag out ∧
      execNodes audioImagePage ogImage = .ok og ∧ Occurs og out := by
  obtain ⟨out, frag, og, h1, h2, h3, _, _, h6, h7, _⟩ :=
    several_kinds_two_priorities audioImagePage (by decide)
  exact ⟨by decide, out, frag, og, h1, h2, h3, h6, h7⟩

/-! ## C3: a string table without `download` -/

/-- C3, refuted as stated: for a video page whose string table lacks `download`
the execution of the player template returns no error; it returns a page. -/
theorem missing_download_key_is_no_error :
    videoNoDownload.IsVideo = true ∧ videoNoDownload.T.lookup "download" = none ∧
    (∃ out : String, PlayerTemplate videoNoDownload = .ok out) ∧
    ∀ e : String, PlayerTemplate videoNoDownload ≠ .error e := by
  refine ⟨rfl, by decide, ⟨_, PlayerTemplate_eq videoNoDownload⟩, ?_⟩
  intro e h
  rw [PlayerTemplate_eq] at h
  cases h

/-- C3, amended. For every video page data whose string table lacks the key
`download`, executing the player template succeeds with the whole page: the
action `{{index .T "download"}}` writes the empty string, so the download link
ends with an empty label (nothing between the icon and `</a>`), directly
before the copy button. -/
theorem missing_download_key_blank_label (d : PageData) (_hv : d.IsVideo = true)
    (hk : d.T.lookup "download" = none) :
    ∃ out : String, PlayerTemplate d = .ok out ∧
      Node.exec d (Node.action (Pipe.index PageData.T "download") Escaper.html) = .ok "" ∧
      Occurs ("                            </svg>\n                            \n" ++
        "                        </a>\n\n" ++
        "                        <button onclick=\"copyLink()\" id=\"copyBtn\"\n") out := by
  refine ⟨_, PlayerTemplate_eq d, ?_, ?_⟩
  · rw [Node.exec_eq]
    simp only [Node.render, Pipe.value, valueAt, hk, Option.getD_none]
    rfl
  · have h := occurs_in_part d .tail (tail_mem _ _ _ _) (playerTail.take 23)
      ((playerTail.drop 23).take 7) (playerTail.drop 30) (by rfl)
    have e : renderNodes d ((playerTail.drop 23).take 7) =
        "                            </svg>\n                            \n" ++
        "                        </a>\n\n" ++
        "                        <button onclick=\"copyLink()\" id=\"copyBtn\"\n" := by
      have e1 : (playerTail.drop 23).take 7 = [Node.text "                            </svg>\n",
        Node.text "                            ",
        Node.action (Pipe.index PageData.T "download") Escaper.html,
        Node.text "\n", Node.text "                        </a>\n", Node.text "\n",
        Node.text "                        <button onclick=\"copyLink()\" id=\"copyBtn\"\n"] := by
        rfl
      rw [e1]
      simp only [renderNodes, Node.render, Pipe.value, valueAt, hk, Option.getD_none,
        Escaper.apply]
      rfl
    rw [e] at h
    exact h

/-- C3 amended, at a video page without the key. -/
theorem missing_download_key_blank_label_video :
    videoNoDownload.IsVideo = true ∧ videoNoDownload.T.lookup "download" = none ∧
    ∃ out : String, PlayerTemplate videoNoDownload = .ok out ∧
      Node.exec videoNoDownload
        (Node.action (Pipe.index PageData.T "download") Escaper.html) = .ok "" ∧
      Occurs ("                            </svg>\n                            \n" ++
        "                        </a>\n\n" ++
        "                        <button onclick=\"copyLink()\" id=\"copyBtn\"\n") out :=
  ⟨rfl, by decide, missing_download_key_blank_label videoNoDownload rfl (by decide)⟩

theorem occurs3 (d : PageData) (p : Part) (hp : p ∈ playerParts d) (i : Nat)
    (a b : String) (pipe : Pipe PageData) (esc : Escaper)
    (h : (p.nodes.drop i).take 3 = [Node.text a, Node.action pipe esc, Node.text b]) :
    Occurs (a ++ esc.apply (pipe.value d) ++ b)
      (renderNodes d ((playerParts d).flatMap Part.nodes)) := by
  have := occurs_stretch d p hp i 3
  rw [h] at this
  simpa [renderNodes, Node.render, String.append_assoc] using this

theorem occurs5 (d : PageData) (p : Part) (hp : p ∈ playerParts d) (i : Nat)
    (a b c : String) (pipe1 pipe2 : Pipe PageData) (esc1 esc2 : Escaper)
    (h : (p.nodes.drop i).take 5 = [Node.text a, Node.action pipe1 esc1, Node.text b,
      Node.action pipe2 esc2, Node.text c]) :
    Occurs (a ++ esc1.apply (pipe1.value d) ++ b ++ esc2.apply (pipe2.value d) ++ c)
      (renderNodes d ((playerParts d).flatMap Part.nodes)) := by
  have := occurs_stretch d p hp i 5
  rw [h] at this
  simpa [renderNodes, Node.render, String.append_assoc] using this

/-! ## C4: the filename is escaped wherever it is written -/

/-- C4. For every page data, whatever the filename, each place where the player
template writes `Filename` holds its escaped form: the `<title>` text, the
`content` of `og:title`, the `title` attribute and the text of the `<h1>`
heading, the `alt` attribute of the image (when the image fragment is the one
written), and the `download` attribute.  The escaped form is the same at every
place; it is the filename with `<`, `>`, `&`, `"` replaced rune by rune by
`&lt;`, `&gt;`, `&amp;`, `&#34;`; it holds no `<`, `>`, `"` or `'`, and every `&`
in it begins a character reference, so it can neither end the attribute value
nor open a tag. -/
theorem filename_escaped_at_every_place (d : PageData) :
    ∃ out : String, PlayerTemplate d = .ok out ∧
      Occurs ("    <title>" ++ rcdataEscaper d.Filename ++ " - " ++
        rcdataEscaper d.ServiceName ++ "</title>\n") out ∧
      Occurs ("    <meta property=\"og:title\" content=\"" ++ attrEscaper d.Filename ++
        "\">\n") out ∧
      Occurs ("                    <h1 class=\"text-xl font-semibold truncate\" title=\"" ++
        attrEscaper d.Filename ++ "\">" ++ htmlEscaper d.Filename ++ "</h1>\n") out ∧
      (d.firstVideoAudioImage = .image →
        Occurs ("                        <img src=\"" ++ urlAttrEscaper d.RawURL ++
          "\" alt=\"" ++ attrEscaper d.Filename ++
          "\" class=\"media-image w-full\" loading=\"eager\">\n") out) ∧
      Occurs ("                        <a href=\"" ++ urlAttrEscaper d.RawURL ++
        "\" download=\"" ++ attrEscaper d.Filename ++ "\"\n") out ∧
      rcdataEscaper d.Filename = attrEscaper d.Filename ∧
      htmlEscaper d.Filename = attrEscaper d.Filename ∧
      (attrEscaper d.Filename).data = (d.Filename.data.flatMap fun c =>
        match htmlReplacementTable c with
        | some repl => repl.data
        | none => [c]) ∧
      htmlReplacementTable '<' = some "&lt;" ∧ htmlReplacementTable '>' = some "&gt;" ∧
      htmlReplacementTable '&' = some "&amp;" ∧ htmlReplacementTable '"' = some "&#34;" ∧
      (∀ c ∈ (attrEscaper d.Filename).data,
        c ≠ '<' ∧ c ≠ '>' ∧ c ≠ '"' ∧ c ≠ Char.ofNat 39) ∧
      (∀ pre post : List Char, (attrEscaper d.Filename).data = pre ++ '&' :: post →
        ∃ ent ∈ ["amp;", "lt;", "gt;", "#34;", "#39;", "#43;"], ent.data <+: post) := by
  refine ⟨_, PlayerTemplate_eq d, ?_, ?_, ?_, ?_, ?_, rfl, rfl, htmlReplacer_flatMap _,
    by decide, by decide, by decide, by decide, htmlReplacer_raw_free _,
    htmlReplacer_ampersand _⟩
  · have h := occurs5 d .head (head_mem _ _ _ _) 7 _ _ _ _ _ _ _ head_title
    exact h
  · have h := occurs3 d .head (head_mem _ _ _ _) 14 _ _ _ _ head_ogTitle
    exact h
  · have h := occurs5 d .info (info_mem _ _ _ _) 7 _ _ _ _ _ _ _ info_heading
    exact h
  · intro hk
    have hm : Part.playerImage ∈ playerParts d := by
      have := playerPart_mem d.IsVideo d.IsAudio d.IsImage (isTrue d.Username)
      unfold PageData.firstVideoAudioImage at hk
      rw [hk] at this
      exact this
    have h := occurs5 d .playerImage hm 4 _ _ _ _ _ _ _ image_alt
    exact h
  · have h := occurs5 d .tail (tail_mem _ _ _ _) 15 _ _ _ _ _ _ _ tail_download
    exact h

/-! ## C5: the uploader line -/

theorem no_uploader_part (v a i : Bool) :
    (∀ p ∈ partsFor v a i false, p ∉ [Part.uploaderLine]) ∧
    (∀ q ∈ partsFor v a i false, q ∈ [Part.uploaderLine, Part.tail] → q = Part.tail) := by
  cases v <;> cases a <;> cases i <;> decide

theorem uploader_part_mem (v a i : Bool) : Part.uploaderLine ∈ partsFor v a i true := by
  cases v <;> cases a <;> cases i <;> decide

set_option maxRecDepth 1000000 in
set_option maxHeartbeats 4000000 in
theorem strong_around_uploadTime :
    clearOf strongTag (Part.tail.nodes.take 5) = true ∧
    clearOf strongTag ((Part.tail.nodes.drop 5).drop 5) = true := by decide!

set_option maxRecDepth 100000 in
theorem userIcon_in_uploaderLine (d : PageData) :
    Occurs userIconTag (renderNodes d uploaderLine) := by
  apply text_occurs
  decide!

/-- C5. The uploader line is the block of the meta info inside
`{{if .Username}}` (source lines 204–211): the user icon, then the localized
`uploaded_by` label together with the uploader name in a `<strong>` element.
For every page data with `Username = ""` the uploader line is absent from the
page: the text the block would write does not occur in the page, its user icon
occurs nowhere, and the only `<strong class="text-gray-900 dark:text-gray-100">`
element of the page is the one of the upload time, so no element for an
uploader name is written.  For every page data with a non-empty `Username` the
uploader line is in the page, and it shows the escaped `T["uploaded_by"]`
followed by the escaped `Username`.  (The `og:description` meta tag of the
document head is not part of the uploader line; see C10.) -/
theorem uploader_line_only_with_username (d : PageData) :
    ∃ out : String, PlayerTemplate d = .ok out ∧
      (d.Username = "" →
        (∀ line : String, execNodes d uploaderLine = .ok line → ¬ Occurs line out) ∧
        ¬ Occurs userIconTag out ∧
        ∃ A B : String, out = A ++
            ("                            <span>" ++
              htmlEscaper (valueAt d.T "uploaded_at") ++
              " <strong class=\"text-gray-900 dark:text-gray-100\">" ++
              htmlEscaper d.UploadedAt.Format ++ "</strong></span>\n") ++ B ∧
          ¬ Occurs strongTag A ∧ ¬ Occurs strongTag B) ∧
      (d.Username ≠ "" →
        ∃ line : String, execNodes d uploaderLine = .ok line ∧ Occurs line out ∧
          Occurs userIconTag line ∧
          Occurs ("                            <span>" ++
            htmlEscaper (valueAt d.T "uploaded_by") ++
            " <strong class=\"text-gray-900 dark:text-gray-100\">" ++
            htmlEscaper d.Username ++ "</strong></span>\n") line) := by
  refine ⟨_, PlayerTemplate_eq d, ?_, ?_⟩
  · intro hu
    have hf : isTrue d.Username = false := (isTrue_eq_false_iff _).mpr hu
    have hparts : playerParts d = partsFor d.IsVideo d.IsAudio d.IsImage false := by
      unfold playerParts; rw [hf]
    have hno := no_uploader_part d.IsVideo d.IsAudio d.IsImage
    have hicon := absent_of_onlyIn d userIconTag _ rfl [.uploaderLine] userIcon_home
      (by rw [hparts]; exact hno.1)
    refine ⟨?_, hicon, ?_⟩
    · intro line hline hocc
      rw [execNodes_eq] at hline
      injection hline with hline
      subst hline
      exact hicon ((userIcon_in_uploaderLine d).trans hocc)
    obtain ⟨A, B, h1, h2, h3⟩ := unique_in_part d strongTag _ rfl .tail _ _ _
      (nodes_split .tail 5 5) strong_around_uploadTime.1 strong_around_uploadTime.2
      [.uploaderLine, .tail] strong_home (tail_mem _ _ _ _)
      (by rw [hparts]; exact hno.2)
    rw [tail_uploadTime, render5, PlayerTemplate_eq] at h1
    injection h1 with h1
    exact ⟨A, B, h1, h2, h3⟩
  · intro hu
    have ht : isTrue d.Username = true := by
      cases h : isTrue d.Username
      · exact absurd ((isTrue_eq_false_iff _).mp h) hu
      · rfl
    have hmem : Part.uploaderLine ∈ playerParts d := by
      unfold playerParts; rw [ht]; exact uploader_part_mem _ _ _
    refine ⟨_, execNodes_eq d _, part_occurs d .uploaderLine hmem,
      userIcon_in_uploaderLine d, ?_⟩
    have h := renderNodes_stretch d (Part.uploaderLine.nodes.take 5)
      ((Part.uploaderLine.nodes.drop 5).take 5) ((Part.uploaderLine.nodes.drop 5).drop 5)
    rw [← nodes_split, uploader_span, render5] at h
    exact h

/-! ## C6: `twitter:card` -/

theorem parts_at_card (v a i u : Bool) :
    partsFor v a i u = (.head :: ogParts (kindVideoImageAudio v a i)) ++
      .twitterCardOpen :: (cardPart (kindVideoImageAudio v a i) :: partsAfterCard v a i u) := by
  cases v <;> cases a <;> cases i <;> rfl

theorem cardPart_nodes (k : MediaKind) : (cardPart k).nodes = [Node.text (cardOf k)] := by
  cases k <;> rfl

theorem partsAfterCard_cons (v a i u : Bool) :
    partsAfterCard v a i u = .chrome :: (partsAfterCard v a i u).tail := rfl

theorem chrome_cons : Part.chrome.nodes = Node.text "\">\n" :: Part.chrome.nodes.tail := rfl

theorem twitterCardOpen_last :
    (Part.twitterCardOpen.nodes.drop 3).take 1 =
      [Node.text "    <meta name=\"twitter:card\" content=\""] ∧
    (Part.twitterCardOpen.nodes.drop 3).drop 1 = [] := ⟨rfl, rfl⟩

theorem twitterCard_before :
    clearOf twitterCardTag (Part.twitterCardOpen.nodes.take 3) = true := by decide

theorem parts_at_card_clear (v a i u : Bool) :
    (∀ q ∈ Part.head :: ogParts (kindVideoImageAudio v a i), q ∉ [Part.twitterCardOpen]) ∧
    (∀ q ∈ cardPart (kindVideoImageAudio v a i) :: partsAfterCard v a i u,
      q ∉ [Part.twitterCardOpen]) := by
  cases v <;> cases a <;> cases i <;> cases u <;> decide

/-- The page holds exactly one `twitter:card` meta tag; its content is the one of
the first flag set in the order of line 57: `IsVideo`, then `IsImage`. -/
theorem twitter_card_unique (d : PageData) :
    ∃ A B : String, PlayerTemplate d = .ok (A ++
        ("    <meta name=\"twitter:card\" content=\"" ++ cardOf d.firstVideoImageAudio ++
          "\">\n") ++ B) ∧
      ¬ Occurs twitterCardTag A ∧ ¬ Occurs twitterCardTag B := by
  have hc := parts_at_card_clear d.IsVideo d.IsAudio d.IsImage (isTrue d.Username)
  obtain ⟨h1, h2, h3⟩ := unique_at d twitterCardTag _ rfl _ _ .twitterCardOpen
    (parts_at_card d.IsVideo d.IsAudio d.IsImage (isTrue d.Username)) _ _ _
    (nodes_split .twitterCardOpen 3 1) twitterCard_before
    (by rw [twitterCardOpen_last.2]; rfl) [.twitterCardOpen] twitterCard_home hc.1 hc.2
  rw [twitterCardOpen_last.1, twitterCardOpen_last.2] at h1
  rw [twitterCardOpen_last.2] at h3
  have hB : renderNodes d ([] ++ (cardPart (kindVideoImageAudio d.IsVideo d.IsAudio d.IsImage)
      :: partsAfterCard d.IsVideo d.IsAudio d.IsImage (isTrue d.Username)).flatMap Part.nodes) =
      (cardOf d.firstVideoImageAudio ++ "\">\n") ++
        renderNodes d (Part.chrome.nodes.tail ++
          (partsAfterCard d.IsVideo d.IsAudio d.IsImage (isTrue d.Username)).tail.flatMap
            Part.nodes) := by
    rw [List.nil_append, List.flatMap_cons, cardPart_nodes, partsAfterCard_cons,
      List.flatMap_cons, chrome_cons]
    simp only [List.singleton_append, List.cons_append, renderNodes, Node.render,
      String.append_assoc, List.tail_cons]
    rfl
  rw [hB] at h1 h3
  refine ⟨_, _, ?_, h2, Occurs.of_append_right h3⟩
  rw [h1]
  simp only [renderNodes, Node.render, String.append_assoc, String.append_empty]

theorem cardOf_flags (d : PageData) :
    cardOf d.firstVideoImageAudio =
      (if d.IsVideo then "player" else if d.IsImage then "summary_large_image"
        else "summary") := by
  unfold PageData.firstVideoImageAudio
  cases d.IsVideo <;> cases d.IsAudio <;> cases d.IsImage <;> rfl

/-- C6, refuted as stated: the page with `IsAudio` and `IsImage` set and `IsVideo`
clear is an audio page (its player fragment is the `<audio>` one, no `<img>` is
written), yet the content of its only `twitter:card` tag is
`summary_large_image`, not `summary`. -/
theorem audio_page_with_image_flag_gets_large_card :
    audioImagePage.IsVideo = false ∧ audioImagePage.IsAudio = true ∧
    audioImagePage.IsImage = true ∧
    audioImagePage.firstVideoAudioImage = .audio ∧
    (∃ out : String, PlayerTemplate audioImagePage = .ok out ∧
      Occurs "<audio" out ∧ ¬ Occurs "<img" out) ∧
    (∃ A B : String, PlayerTemplate audioImagePage = .ok (A ++
        ("    <meta name=\"twitter:card\" content=\"" ++ "summary_large_image" ++
          "\">\n") ++ B) ∧
      ¬ Occurs twitterCardTag A ∧ ¬ Occurs twitterCardTag B) ∧
    "summary_large_image" ≠ "summary" := by
  obtain ⟨out, _, _, h1, _, _, h4, h5, _⟩ := kinds_of_page audioImagePage
  exact ⟨rfl, rfl, rfl, rfl, ⟨out, h1, h4, h5 .image (by decide)⟩,
    twitter_card_unique audioImagePage, by decide⟩

/-- C6, amended. For every page data, the page holds exactly one `twitter:card`
meta tag, and its content is `player` when `IsVideo` is set,
`summary_large_image` when `IsVideo` is clear and `IsImage` is set, and `summary`
otherwise.  So for page data with exactly one media kind the content is `player`
for video, `summary_large_image` for image, and `summary` for audio and for
other; for page data with `IsAudio` and `IsImage` both set and `IsVideo` clear,
whose player fragment is the audio one, it is `summary_large_image`. -/
theorem twitter_card_by_flags (d : PageData) :
    (∃ A B : String, PlayerTemplate d = .ok (A ++
        ("    <meta name=\"twitter:card\" content=\"" ++
          (if d.IsVideo then "player" else if d.IsImage then "summary_large_image"
            else "summary") ++ "\">\n") ++ B) ∧
      ¬ Occurs twitterCardTag A ∧ ¬ Occurs twitterCardTag B) ∧
    (d.OneKind →
      (if d.IsVideo then "player" else if d.IsImage then "summary_large_image"
        else "summary") = cardOf d.firstVideoAudioImage) ∧
    cardOf .video = "player" ∧ cardOf .image = "summary_large_image" ∧
    cardOf .audio = "summary" ∧ cardOf .other = "summary" ∧
    (d.IsVideo = false → d.IsAudio = true → d.IsImage = true →
      d.firstVideoAudioImage = .audio ∧
      (if d.IsVideo then "player" else if d.IsImage then "summary_large_image"
        else "summary") = "summary_large_image") := by
  refine ⟨?_, ?_, rfl, rfl, rfl, rfl, ?_⟩
  · have h := twitter_card_unique d
    rw [cardOf_flags] at h
    exact h
  · intro h
    unfold PageData.OneKind at h
    unfold PageData.firstVideoAudioImage
    revert h
    cases d.IsVideo <;> cases d.IsAudio <;> cases d.IsImage <;> decide
  · intro hv ha hi
    unfold PageData.firstVideoAudioImage
    rw [hv, ha, hi]
    exact ⟨rfl, rfl⟩

/-! ## C7: the upload time -/

theorem utod_plain (u : Nat) (h : u < 10) : htmlReplacementTable (utod u) = none := by
  interval_cases u <;> decide

theorem digitChar_plain (k : Nat) (h : k < 10) :
    htmlReplacementTable (Nat.digitChar k) = none := by
  interval_cases k <;> decide

theorem toDigitsCore_plain : ∀ (fuel n : Nat) (ds : List Char),
    (∀ c ∈ ds, htmlReplacementTable c = none) →
    ∀ c ∈ Nat.toDigitsCore 10 fuel n ds, htmlReplacementTable c = none
  | 0, _, ds, h => by simpa [Nat.toDigitsCore] using h
  | fuel + 1, n, ds, h => by
    have hd : ∀ c ∈ Nat.digitChar (n % 10) :: ds, htmlReplacementTable c = none := by
      intro c hc
      rcases List.mem_cons.mp hc with hc | hc
      · rw [hc]; exact digitChar_plain _ (Nat.mod_lt _ (by decide))
      · exact h c hc
    unfold Nat.toDigitsCore
    simp only
    split
    · exact hd
    · exact toDigitsCore_plain fuel (n / 10) _ hd

theorem appendDigits_plain (u width : Nat) :
    ∀ c ∈ appendDigits u width, htmlReplacementTable c = none := by
  unfold appendDigits
  split_ifs with h1 h2
  · intro c hc
    simp only [List.mem_cons, List.mem_nil_iff, or_false] at hc
    rcases hc with rfl | rfl
    · exact utod_plain _ (by omega)
    · exact utod_plain _ (by omega)
  · intro c hc
    simp only [List.mem_cons, List.mem_nil_iff, or_false] at hc
    rcases hc with rfl | rfl | rfl | rfl
    · exact utod_plain _ (by omega)
    · exact utod_plain _ (by omega)
    · exact utod_plain _ (by omega)
    · exact utod_plain _ (by omega)
  · intro c hc
    rcases List.mem_append.mp hc with hc | hc
    · rw [List.eq_of_mem_replicate hc]; decide
    · exact toDigitsCore_plain _ _ [] (by simp) c hc

theorem appendInt_plain (x : Int) (width : Nat) :
    ∀ c ∈ appendInt x width, htmlReplacementTable c = none := by
  intro c hc
  unfold appendInt at hc
  rcases List.mem_append.mp hc with hc | hc
  · split at hc
    · rw [List.mem_singleton.mp hc]; decide
    · simp at hc
  · exact appendDigits_plain _ _ c hc

theorem Format_plain (t : Time) : ∀ c ∈ t.Format.data, htmlReplacementTable c = none := by
  intro c hc
  simp only [Time.Format, layoutChunks, List.flatMap_cons, List.flatMap_nil, Chunk.append,
    List.append_nil, List.mem_append] at hc
  rcases hc with hc | hc | hc | hc | hc | hc | hc | hc | hc
  · exact appendInt_plain _ _ c hc
  · revert hc; revert c; decide
  · exact appendInt_plain _ _ c hc
  · revert hc; revert c; decide
  · exact appendInt_plain _ _ c hc
  · revert hc; revert c; decide
  · exact appendInt_plain _ _ c hc
  · revert hc; revert c; decide
  · exact appendInt_plain _ _ c hc

theorem htmlEscaper_Format (t : Time) : htmlEscaper t.Format = t.Format :=
  String.ext (htmlReplacer_plain _ (Format_plain t))

theorem appendInt_two (n : Nat) (h : n < 100) :
    appendInt (n : Int) 2 = [utod (n / 10), utod (n % 10)] := by
  have hneg : ¬ ((n : Int) < 0) := by omega
  unfold appendInt appendDigits
  rw [if_neg hneg, Int.natAbs_ofNat, if_pos ⟨rfl, h⟩]
  rfl

theorem appendInt_four (n : Nat) (h : n < 10000) :
    appendInt (n : Int) 4 =
      [utod (n / 1000), utod (n / 100 % 10), utod (n / 10 % 10), utod (n % 10)] := by
  have hneg : ¬ ((n : Int) < 0) := by omega
  have h4 : ¬ ((4 : Nat) = 2 ∧ n < 100) := by omega
  unfold appendInt appendDigits
  rw [if_neg hneg, Int.natAbs_ofNat, if_neg h4, if_pos ⟨rfl, h⟩]
  rfl

theorem appendInt_length (x : Int) : 4 ≤ (appendInt x 4).length := by
  unfold appendInt appendDigits
  rw [List.length_append]
  split_ifs with h1 h2 h3 h4 h5
  all_goals simp only [List.length_append, List.length_replicate, List.length_cons,
    List.length_nil]
  all_goals omega

theorem toDigitsCore_length_le : ∀ (fuel n : Nat) (ds : List Char),
    ds.length ≤ (Nat.toDigitsCore 10 fuel n ds).length
  | 0, _, ds => by simp [Nat.toDigitsCore]
  | fuel + 1, n, ds => by
    unfold Nat.toDigitsCore
    simp only
    split
    · simp
    · have := toDigitsCore_length_le fuel (n / 10) (Nat.digitChar (n % 10) :: ds)
      simp only [List.length_cons] at this
      omega

/-- A number of at least `10 ^ k` has more than `k` decimal digits. -/
theorem toDigitsCore_length_digits : ∀ (k fuel n : Nat) (ds : List Char),
    10 ^ k ≤ n → k < fuel → ds.length + k + 1 ≤ (Nat.toDigitsCore 10 fuel n ds).length
  | 0, fuel, n, ds, _, hf => by
    obtain ⟨f, rfl⟩ : ∃ f, fuel = f + 1 := ⟨fuel - 1, by omega⟩
    unfold Nat.toDigitsCore
    simp only
    split
    · simp
    · have := toDigitsCore_length_le f (n / 10) (Nat.digitChar (n % 10) :: ds)
      simp only [List.length_cons] at this
      omega
  | k + 1, fuel, n, ds, hn, hf => by
    obtain ⟨f, rfl⟩ : ∃ f, fuel = f + 1 := ⟨fuel - 1, by omega⟩
    have hdiv : 10 ^ k ≤ n / 10 := by
      rw [Nat.le_div_iff_mul_le (by decide)]
      rw [pow_succ] at hn
      exact hn
    have hpos : 0 < 10 ^ k := Nat.pow_pos (by decide)
    have hne : n / 10 ≠ 0 := by omega
    unfold Nat.toDigitsCore
    simp only [hne, if_false]
    have := toDigitsCore_length_digits k f (n / 10) (Nat.digitChar (n % 10) :: ds) hdiv
      (by omega)
    simp only [List.length_cons] at this
    omega

theorem toDigits_length_five (n : Nat) (h : 10000 ≤ n) : 5 ≤ (Nat.toDigits 10 n).length := by
  have := toDigitsCore_length_digits 4 (n + 1) n [] (by simpa using h) (by omega)
  simpa [Nat.toDigits] using this

/-- Beyond 9999 the year is written as its decimal numeral, with no padding. -/
theorem appendInt_beyond (n : Nat) (h : 10000 ≤ n) :
    appendInt (n : Int) 4 = Nat.toDigits 10 n := by
  have hneg : ¬ ((n : Int) < 0) := by omega
  have h2 : ¬ ((4 : Nat) = 2 ∧ n < 100) := by omega
  have h4 : ¬ ((4 : Nat) = 4 ∧ n < 10000) := by omega
  have hl := toDigits_length_five n h
  unfold appendInt appendDigits
  rw [if_neg hneg, Int.natAbs_ofNat, if_neg h2, if_neg h4]
  have h0 : 4 - (Nat.toDigits 10 n).length = 0 := by omega
  rw [h0]
  rfl

/-- A negative year is written as a minus sign and then as its magnitude is. -/
theorem appendInt_negative (x : Int) (h : x < 0) :
    appendInt x 4 = '-' :: appendInt (-x) 4 := by
  have hneg : ¬ (-x < 0) := by omega
  unfold appendInt
  rw [if_pos h, if_neg hneg, Int.natAbs_neg]
  rfl

/-- The upload time is written, as `Format` gives it, in the meta info line. -/
theorem upload_time_occurs (d : PageData) :
    ∃ out : String, PlayerTemplate d = .ok out ∧
      Occurs ("                            <span>" ++
        htmlEscaper (valueAt d.T "uploaded_at") ++
        " <strong class=\"text-gray-900 dark:text-gray-100\">" ++
        d.UploadedAt.Format ++ "</strong></span>\n") out := by
  refine ⟨_, PlayerTemplate_eq d, ?_⟩
  have h := occurs5 d .tail (tail_mem _ _ _ _) 5 _ _ _ _ _ _ _ tail_uploadTime
  simp only [Escaper.apply, Pipe.value, htmlEscaper_Format] at h
  exact h

/-- C7, refuted as stated: an upload time in the year 10000 is written with a
five-digit year, `10000-01-01 00:00`, seventeen characters instead of the
sixteen of `YYYY-MM-DD HH:MM`. -/
theorem year_10000_has_five_digits :
    year10000Page.UploadedAt.WellFormed ∧
    year10000Page.UploadedAt.Format = "10000-01-01 00:00" ∧
    year10000Page.UploadedAt.Format.length = 17 ∧
    ∃ out : String, PlayerTemplate year10000Page = .ok out ∧
      Occurs ("                            <span>Uploaded at" ++
        " <strong class=\"text-gray-900 dark:text-gray-100\">" ++
        "10000-01-01 00:00" ++ "</strong></span>\n") out := by
  refine ⟨by decide, by decide, by decide, ?_⟩
  obtain ⟨out, h1, h2⟩ := upload_time_occurs year10000Page
  exact ⟨out, h1, h2⟩

/-- C7, amended. For every page data, the upload time is written, without any
conversion of the time zone and whatever `Lang` is, as the year, `-`, the
two-digit month, `-`, the two-digit day, a space, the two-digit hour of the
24-hour clock, `:`, and the two-digit minute, the seconds being dropped.  The
year is padded with zeros to at least four digits: for the years 0 to 9999 it
has exactly four digits, and the whole text has the sixteen characters of
`YYYY-MM-DD HH:MM`; beyond 9999 it is the decimal numeral of the year, which has
five digits or more; a negative year is written as a minus sign followed by the
text of its magnitude. -/
theorem upload_time_layout (d : PageData) (hw : d.UploadedAt.WellFormed) :
    (∃ out : String, PlayerTemplate d = .ok out ∧
      Occurs ("                            <span>" ++
        htmlEscaper (valueAt d.T "uploaded_at") ++
        " <strong class=\"text-gray-900 dark:text-gray-100\">" ++
        d.UploadedAt.Format ++ "</strong></span>\n") out) ∧
    (∀ lang : String, ∃ out : String, PlayerTemplate { d with Lang := lang } = .ok out ∧
      Occurs ("                            <span>" ++
        htmlEscaper (valueAt d.T "uploaded_at") ++
        " <strong class=\"text-gray-900 dark:text-gray-100\">" ++
        d.UploadedAt.Format ++ "</strong></span>\n") out) ∧
    d.UploadedAt.Format.data = appendInt d.UploadedAt.year 4 ++
      ['-', utod (d.UploadedAt.month / 10), utod (d.UploadedAt.month % 10),
       '-', utod (d.UploadedAt.day / 10), utod (d.UploadedAt.day % 10),
       ' ', utod (d.UploadedAt.hour / 10), utod (d.UploadedAt.hour % 10),
       ':', utod (d.UploadedAt.minute / 10), utod (d.UploadedAt.minute % 10)] ∧
    4 ≤ (appendInt d.UploadedAt.year 4).length ∧
    (0 ≤ d.UploadedAt.year → d.UploadedAt.year ≤ 9999 →
      appendInt d.UploadedAt.year 4 =
        [utod (d.UploadedAt.year.toNat / 1000), utod (d.UploadedAt.year.toNat / 100 % 10),
         utod (d.UploadedAt.year.toNat / 10 % 10), utod (d.UploadedAt.year.toNat % 10)] ∧
      d.UploadedAt.Format.length = 16) ∧
    (9999 < d.UploadedAt.year →
      appendInt d.UploadedAt.year 4 = (Nat.repr d.UploadedAt.year.toNat).data ∧
      5 ≤ (appendInt d.UploadedAt.year 4).length ∧
      17 ≤ d.UploadedAt.Format.length) ∧
    (d.UploadedAt.year < 0 →
      appendInt d.UploadedAt.year 4 = '-' :: appendInt (-d.UploadedAt.year) 4 ∧
      0 < -d.UploadedAt.year) := by
  obtain ⟨h1, h2, h3, h4, h5, h6, h7⟩ := hw
  have hfmt : d.UploadedAt.Format.data = appendInt d.UploadedAt.year 4 ++
      ['-', utod (d.UploadedAt.month / 10), utod (d.UploadedAt.month % 10),
       '-', utod (d.UploadedAt.day / 10), utod (d.UploadedAt.day % 10),
       ' ', utod (d.UploadedAt.hour / 10), utod (d.UploadedAt.hour % 10),
       ':', utod (d.UploadedAt.minute / 10), utod (d.UploadedAt.minute % 10)] := by
    simp only [Time.Format, layoutChunks, List.flatMap_cons, List.flatMap_nil, Chunk.append,
      List.append_nil]
    rw [appendInt_two _ (by omega), appendInt_two _ (by omega), appendInt_two _ (by omega),
      appendInt_two _ (by omega)]
    rfl
  refine ⟨upload_time_occurs d, fun lang => upload_time_occurs { d with Lang := lang },
    hfmt, appendInt_length _, ?_, ?_, fun hneg => ⟨appendInt_negative _ hneg, by omega⟩⟩
  swap
  · intro hbig
    obtain ⟨n, hn⟩ := Int.eq_ofNat_of_zero_le (show 0 ≤ d.UploadedAt.year by omega)
    have hn' : 10000 ≤ n := by omega
    have hb : appendInt d.UploadedAt.year 4 = (Nat.repr d.UploadedAt.year.toNat).data := by
      rw [hn, Int.toNat_ofNat]
      exact appendInt_beyond n hn'
    have hl : 5 ≤ (appendInt d.UploadedAt.year 4).length := by
      rw [hn, appendInt_beyond n hn']
      exact toDigits_length_five n hn'
    refine ⟨hb, hl, ?_⟩
    rw [String.length, hfmt, List.length_append]
    simp only [List.length_cons, List.length_nil]
    omega
  intro hy0 hy1
  have hy : appendInt d.UploadedAt.year 4 =
      [utod (d.UploadedAt.year.toNat / 1000), utod (d.UploadedAt.year.toNat / 100 % 10),
       utod (d.UploadedAt.year.toNat / 10 % 10), utod (d.UploadedAt.year.toNat % 10)] := by
    obtain ⟨n, hn⟩ := Int.eq_ofNat_of_zero_le hy0
    rw [hn] at hy1 ⊢
    rw [Int.toNat_ofNat]
    exact appendInt_four n (by omega)
  refine ⟨hy, ?_⟩
  rw [String.length, hfmt, hy]
  rfl

/-- C7 amended, at `2024-03-15T09:30:00`: the page shows `2024-03-15 09:30`. -/
theorem upload_time_layout_2024 :
    videoPage.UploadedAt.WellFormed ∧
    videoPage.UploadedAt = ⟨2024, 3, 15, 9, 30, 0⟩ ∧
    videoPage.UploadedAt.Format = "2024-03-15 09:30" ∧
    ∃ out : String, PlayerTemplate videoPage = .ok out ∧
      Occurs ("                            <span>" ++
        htmlEscaper (valueAt videoPage.T "uploaded_at") ++
        " <strong class=\"text-gray-900 dark:text-gray-100\">" ++
        "2024-03-15 09:30" ++ "</strong></span>\n") out := by
  refine ⟨by decide, rfl, by decide, ?_⟩
  exact (upload_time_layout videoPage (by decide)).1

/-! ## C8: the not-found page -/

theorem NotFoundTemplate_eq (d : NotFoundData) :
    NotFoundTemplate d = .ok (renderNodes d notFoundPage) := by
  unfold NotFoundTemplate notFoundTemplateHTML
  exact execNodes_eq d _

/-- A tag written by one stretch of a node list and absent around it. -/
theorem unique_in_nodes {α : Type} (d : α) (m : String) (m' : List Char)
    (hm : m.data = '<' :: m') (ns : List (Node α)) (i n : Nat)
    (hpre : clearOf m (ns.take i) = true) (hpost : clearOf m ((ns.drop i).drop n) = true) :
    ∃ A B : String, renderNodes d ns = A ++ renderNodes d ((ns.drop i).take n) ++ B ∧
      ¬ Occurs m A ∧ ¬ Occurs m B := by
  refine ⟨renderNodes d (ns.take i), renderNodes d ((ns.drop i).drop n), ?_,
    not_infix_of_clearOf d m m' hm _ hpre, not_infix_of_clearOf d m m' hm _ hpost⟩
  rw [← renderNodes_append, ← renderNodes_append, List.append_assoc, List.take_append_drop,
    List.take_append_drop]

theorem occurs_of_occursIn (m s : String) (h : occursIn m.data s.data = true) : Occurs m s :=
  infix_of_occursIn _ _ h

theorem Occurs.of_eq_append {frag out A B : String} (h : out = A ++ frag ++ B) :
    Occurs frag out := by
  subst h
  exact ⟨A.data, B.data, by simp [String.data_append]⟩

theorem notFound_link_text (d : NotFoundData) :
    renderNodes d ((notFoundPage.drop 45).take 8) =
      "        <a href=\"/\" class=\"inline-flex items-center gap-2 px-6 py-3 bg-primary-600 hover:bg-primary-700 text-white font-medium rounded-lg transition-colors\">\n" ++
        "            <svg class=\"w-5 h-5\" fill=\"none\" stroke=\"currentColor\" viewBox=\"0 0 24 24\">\n" ++
        "                <path stroke-linecap=\"round\" stroke-linejoin=\"round\" stroke-width=\"2\" d=\"M3 12l2-2m0 0l7-7 7 7M5 10v10a1 1 0 001 1h3m10-11l2 2m-2-2v10a1 1 0 01-1 1h-3m-6 0a1 1 0 001-1v-4a1 1 0 011-1h2a1 1 0 011 1v4a1 1 0 001 1m-6 0h6\"/>\n" ++
        "            </svg>\n" ++
        "            " ++ htmlEscaper d.ServiceName ++ "\n" ++ "        </a>\n" := by
  rw [notFound_link]
  simp only [renderNodes, Node.render, String.append_assoc, String.append_empty]
  rfl

set_option maxRecDepth 1000000 in
set_option maxHeartbeats 4000000 in
theorem notFound_around :
    (clearOf "<html" (notFoundPage.take 1) = true ∧
      clearOf "<html" ((notFoundPage.drop 1).drop 3) = true) ∧
    (clearOf "<h1" (notFoundPage.take 39) = true ∧
      clearOf "<h1" ((notFoundPage.drop 39).drop 3) = true) ∧
    (clearOf "<p " (notFoundPage.take 42) = true ∧
      clearOf "<p " ((notFoundPage.drop 42).drop 3) = true) ∧
    (clearOf "<a " (notFoundPage.take 45) = true ∧
      clearOf "<a " ((notFoundPage.drop 45).drop 8) = true) := by decide!

/-- C8. For every not-found data whose string table holds `not_found` and
`not_found_desc`, executing the not-found template succeeds with a document
that has exactly one `<html>` tag, whose `lang` attribute is the escaped `Lang`;
exactly one `<h1>` heading, whose text is `T["not_found"]`; exactly one
paragraph, whose text is `T["not_found_desc"]`; and exactly one link, to `/`,
whose visible text after its icon is `ServiceName`.  The three texts are
written in their HTML-escaped form, which is the text itself when it holds none
of NUL, `"`, `&`, `'`, `+`, `<`, `>`. -/
theorem not_found_page_contents (d : NotFoundData) (nf desc : String)
    (hnf : d.T.lookup "not_found" = some nf)
    (hdesc : d.T.lookup "not_found_desc" = some desc) :
    ∃ out : String, NotFoundTemplate d = .ok out ∧
      (∃ A B : String, out = A ++ ("<html lang=\"" ++ attrEscaper d.Lang ++ "\">\n") ++ B ∧
        ¬ Occurs "<html" A ∧ ¬ Occurs "<html" B) ∧
      (∃ A B : String, out = A ++ ("        <h1 class=\"text-3xl font-bold mb-2\">" ++
          htmlEscaper nf ++ "</h1>\n") ++ B ∧
        ¬ Occurs "<h1" A ∧ ¬ Occurs "<h1" B) ∧
      (∃ A B : String, out = A ++
          ("        <p class=\"text-gray-600 dark:text-gray-400 mb-8\">" ++
            htmlEscaper desc ++ "</p>\n") ++ B ∧
        ¬ Occurs "<p " A ∧ ¬ Occurs "<p " B) ∧
      (∃ A B : String, out = A ++
          ("        <a href=\"/\" class=\"inline-flex items-center gap-2 px-6 py-3 bg-primary-600 hover:bg-primary-700 text-white font-medium rounded-lg transition-colors\">\n" ++
            "            <svg class=\"w-5 h-5\" fill=\"none\" stroke=\"currentColor\" viewBox=\"0 0 24 24\">\n" ++
            "                <path stroke-linecap=\"round\" stroke-linejoin=\"round\" stroke-width=\"2\" d=\"M3 12l2-2m0 0l7-7 7 7M5 10v10a1 1 0 001 1h3m10-11l2 2m-2-2v10a1 1 0 01-1 1h-3m-6 0a1 1 0 001-1v-4a1 1 0 011-1h2a1 1 0 011 1v4a1 1 0 001 1m-6 0h6\"/>\n" ++
            "            </svg>\n" ++
            "            " ++ htmlEscaper d.ServiceName ++ "\n" ++ "        </a>\n") ++ B ∧
        ¬ Occurs "<a " A ∧ ¬ Occurs "<a " B) ∧
      (∀ s : String, (∀ c ∈ s.data, htmlReplacementTable c = none) →
        htmlEscaper s = s ∧ attrEscaper s = s) := by
  have hv1 : valueAt d.T "not_found" = nf := by simp [valueAt, hnf]
  have hv2 : valueAt d.T "not_found_desc" = desc := by simp [valueAt, hdesc]
  refine ⟨_, NotFoundTemplate_eq d, ?_, ?_, ?_, ?_, ?_⟩
  · obtain ⟨A, B, h1, h2, h3⟩ := unique_in_nodes d "<html" _ rfl notFoundPage 1 3
      notFound_around.1.1 notFound_around.1.2
    rw [notFound_html, render3] at h1
    exact ⟨A, B, h1, h2, h3⟩
  · obtain ⟨A, B, h1, h2, h3⟩ := unique_in_nodes d "<h1" _ rfl notFoundPage 39 3
      notFound_around.2.1.1 notFound_around.2.1.2
    rw [notFound_heading, render3] at h1
    simp only [Pipe.value, hv1] at h1
    exact ⟨A, B, h1, h2, h3⟩
  · obtain ⟨A, B, h1, h2, h3⟩ := unique_in_nodes d "<p " _ rfl notFoundPage 42 3
      notFound_around.2.2.1.1 notFound_around.2.2.1.2
    rw [notFound_paragraph, render3] at h1
    simp only [Pipe.value, hv2] at h1
    exact ⟨A, B, h1, h2, h3⟩
  · obtain ⟨A, B, h1, h2, h3⟩ := unique_in_nodes d "<a " _ rfl notFoundPage 45 8
      notFound_around.2.2.2.1 notFound_around.2.2.2.2
    rw [notFound_link_text] at h1
    exact ⟨A, B, h1, h2, h3⟩
  · intro s hs
    exact ⟨String.ext (htmlReplacer_plain _ hs), String.ext (htmlReplacer_plain _ hs)⟩

set_option maxRecDepth 100000 in
/-- C8, at the example: service `Acme`, language `en`, table
`{not_found: "Not Found", not_found_desc: "Gone"}`.  The document has
`<html lang="en">`, the heading `Not Found`, the paragraph `Gone`, and `Acme` as
the text of the link. -/
theorem not_found_page_contents_acme :
    acmeNotFound.T.lookup "not_found" = some "Not Found" ∧
    acmeNotFound.T.lookup "not_found_desc" = some "Gone" ∧
    ∃ out : String, NotFoundTemplate acmeNotFound = .ok out ∧
      Occurs "<html lang=\"en\">" out ∧
      Occurs "<h1 class=\"text-3xl font-bold mb-2\">Not Found</h1>" out ∧
      Occurs "<p class=\"text-gray-600 dark:text-gray-400 mb-8\">Gone</p>" out ∧
      Occurs "            </svg>\n            Acme\n        </a>" out := by
  obtain ⟨out, h0, ⟨A1, B1, e1, _⟩, ⟨A2, B2, e2, _⟩, ⟨A3, B3, e3, _⟩, ⟨A4, B4, e4, _⟩, _⟩ :=
    not_found_page_contents acmeNotFound "Not Found" "Gone" (by decide) (by decide)
  refine ⟨by decide, by decide, out, h0, ?_, ?_, ?_, ?_⟩
  · exact (occurs_of_occursIn _ _ (by decide!)).trans (Occurs.of_eq_append e1)
  · exact (occurs_of_occursIn _ _ (by decide!)).trans (Occurs.of_eq_append e2)
  · exact (occurs_of_occursIn _ _ (by decide!)).trans (Occurs.of_eq_append e3)
  · exact (occurs_of_occursIn _ _ (by decide!)).trans (Occurs.of_eq_append e4)

/-! ## C9: the content type in `<source type>` and `og:video:type` -/

theorem htmlReplacer_length (s : List Char) : s.length ≤ (htmlReplacer s).length := by
  induction s with
  | nil => simp [htmlReplacer]
  | cons r rest ih =>
    unfold htmlReplacer
    split
    · rename_i repl h
      have : 1 ≤ repl.data.length := by
        unfold htmlReplacementTable at h
        split_ifs at h
        all_goals (injection h with h; subst h; decide)
      simp only [List.length_append, List.length_cons]
      omega
    · simp only [List.length_cons]
      omega

/-- A text the escaper leaves unchanged holds no rune of the table. -/
theorem plain_of_htmlReplacer_eq : ∀ s : List Char, htmlReplacer s = s →
    ∀ c ∈ s, htmlReplacementTable c = none
  | [], _ => by simp
  | r :: rest, h => by
    have hlen := htmlReplacer_length rest
    unfold htmlReplacer at h
    split at h
    · rename_i repl hr
      exfalso
      have hl := congrArg List.length h
      simp only [List.length_append, List.length_cons] at hl
      have hl' : repl.data.length ≤ 1 := by omega
      unfold htmlReplacementTable at hr
      split_ifs at hr with h0
      all_goals
        injection hr with hr
        subst hr
        first
          | exact absurd hl' (by decide)
          | (rw [h0] at h
             injection h with hh _
             exact absurd hh (by decide))
    · rename_i hr
      injection h with _ h'
      intro c hc
      rcases List.mem_cons.mp hc with hc | hc
      · rw [hc]; exact hr
      · exact plain_of_htmlReplacer_eq rest h' c hc

theorem attrEscaper_eq_self_iff (s : String) :
    attrEscaper s = s ↔ ∀ c ∈ s.data, htmlReplacementTable c = none := by
  constructor
  · intro h
    apply plain_of_htmlReplacer_eq
    have := congrArg String.data h
    exact this
  · intro h
    exact String.ext (htmlReplacer_plain _ h)

theorem source_parts (v a i u : Bool) :
    (v = true → Part.playerVideo ∈ partsFor v a i u ∧ Part.ogVideo ∈ partsFor v a i u ∧
      ∀ q ∈ partsFor v a i u, q ∈ [Part.playerVideo, Part.playerAudio] →
        q = Part.playerVideo) ∧
    (v = false → a = true → Part.playerAudio ∈ partsFor v a i u ∧
      ∀ q ∈ partsFor v a i u, q ∈ [Part.playerVideo, Part.playerAudio] →
        q = Part.playerAudio) := by
  cases v <;> cases a <;> cases i <;> cases u <;> decide

set_option maxRecDepth 100000 in
theorem source_around :
    clearOf sourceTag (Part.playerVideo.nodes.take 2) = true ∧
    clearOf sourceTag ((Part.playerVideo.nodes.drop 2).drop 5) = true ∧
    clearOf sourceTag (Part.playerAudio.nodes.take 8) = true ∧
    clearOf sourceTag ((Part.playerAudio.nodes.drop 8).drop 5) = true := by decide!

/-- The one `<source>` tag of a video page and of an audio page. -/
theorem source_tag_unique (d : PageData) :
    (d.IsVideo = true →
      ∃ A B : String, PlayerTemplate d = .ok (A ++
          ("                        <source src=\"" ++ urlAttrEscaper d.RawURL ++
            "\" type=\"" ++ attrEscaper d.ContentType ++ "\">\n") ++ B) ∧
        ¬ Occurs sourceTag A ∧ ¬ Occurs sourceTag B) ∧
    (d.IsVideo = false → d.IsAudio = true →
      ∃ A B : String, PlayerTemplate d = .ok (A ++
          ("                            <source src=\"" ++ urlAttrEscaper d.RawURL ++
            "\" type=\"" ++ attrEscaper d.ContentType ++ "\">\n") ++ B) ∧
        ¬ Occurs sourceTag A ∧ ¬ Occurs sourceTag B) := by
  have hs := source_parts d.IsVideo d.IsAudio d.IsImage (isTrue d.Username)
  constructor
  · intro hv
    obtain ⟨A, B, h1, h2, h3⟩ := unique_in_part d sourceTag _ rfl .playerVideo _ _ _
      (nodes_split .playerVideo 2 5) source_around.1 source_around.2.1
      [.playerVideo, .playerAudio] source_home (hs.1 hv).1 (hs.1 hv).2.2
    rw [video_source, render5] at h1
    exact ⟨A, B, h1, h2, h3⟩
  · intro hv ha
    obtain ⟨A, B, h1, h2, h3⟩ := unique_in_part d sourceTag _ rfl .playerAudio _ _ _
      (nodes_split .playerAudio 8 5) source_around.2.2.1 source_around.2.2.2
      [.playerVideo, .playerAudio] source_home (hs.2 hv ha).1 (hs.2 hv ha).2
    rw [audio_source, render5] at h1
    exact ⟨A, B, h1, h2, h3⟩

/-- C9, refuted as stated: for the audio page with `ContentType = "audio/amr-wb+"`
the only `<source>` tag of the page has `type="audio/amr-wb&#43;"`: the `+` is
written as `&#43;`, so the content type is not emitted character for
character. -/
theorem content_type_plus_is_escaped :
    amrPage.IsVideo = false ∧ amrPage.IsAudio = true ∧
    amrPage.ContentType = "audio/amr-wb+" ∧
    attrEscaper amrPage.ContentType = "audio/amr-wb&#43;" ∧
    attrEscaper amrPage.ContentType ≠ amrPage.ContentType ∧
    ∃ A B : String, PlayerTemplate amrPage = .ok (A ++
        ("                            <source src=\"" ++ urlAttrEscaper amrPage.RawURL ++
          "\" type=\"" ++ "audio/amr-wb&#43;" ++ "\">\n") ++ B) ∧
      ¬ Occurs sourceTag A ∧ ¬ Occurs sourceTag B := by
  refine ⟨rfl, rfl, rfl, by decide, by decide, ?_⟩
  exact (source_tag_unique amrPage).2 rfl rfl

/-- C9, amended. For every video or audio page data and every `ContentType`, the
page holds exactly one `<source>` tag, and the value of its `type` attribute is
the attribute-escaped `ContentType`; for video the content of `og:video:type` is
the attribute-escaped `ContentType` too.  The escaped form replaces NUL, `"`,
`&`, `'`, `+`, `<`, `>` rune by rune (by U+FFFD, `&#34;`, `&amp;`, `&#39;`,
`&#43;`, `&lt;`, `&gt;`); it is `ContentType` unchanged exactly when
`ContentType` holds none of these seven runes. -/
theorem content_type_attribute_escaped (d : PageData)
    (h : d.IsVideo = true ∨ d.IsAudio = true) :
    (d.IsVideo = true →
      (∃ A B : String, PlayerTemplate d = .ok (A ++
          ("                        <source src=\"" ++ urlAttrEscaper d.RawURL ++
            "\" type=\"" ++ attrEscaper d.ContentType ++ "\">\n") ++ B) ∧
        ¬ Occurs sourceTag A ∧ ¬ Occurs sourceTag B) ∧
      ∃ out : String, PlayerTemplate d = .ok out ∧
        Occurs ("    <meta property=\"og:video:type\" content=\"" ++
          attrEscaper d.ContentType ++ "\">\n") out) ∧
    (d.IsVideo = false →
      ∃ A B : String, PlayerTemplate d = .ok (A ++
          ("                            <source src=\"" ++ urlAttrEscaper d.RawURL ++
            "\" type=\"" ++ attrEscaper d.ContentType ++ "\">\n") ++ B) ∧
        ¬ Occurs sourceTag A ∧ ¬ Occurs sourceTag B) ∧
    (attrEscaper d.ContentType).data = (d.ContentType.data.flatMap fun c =>
      match htmlReplacementTable c with
      | some repl => repl.data
      | none => [c]) ∧
    (attrEscaper d.ContentType = d.ContentType ↔
      ∀ c ∈ d.ContentType.data, htmlReplacementTable c = none) ∧
    (∀ c : Char, htmlReplacementTable c = none ↔
      c ≠ Char.ofNat 0 ∧ c ≠ '"' ∧ c ≠ '&' ∧ c ≠ Char.ofNat 39 ∧ c ≠ '+' ∧ c ≠ '<' ∧
        c ≠ '>') := by
  have hs := source_tag_unique d
  refine ⟨?_, ?_, htmlReplacer_flatMap _, attrEscaper_eq_self_iff _, ?_⟩
  · intro hv
    refine ⟨hs.1 hv, _, PlayerTemplate_eq d, ?_⟩
    have hm := ((source_parts d.IsVideo d.IsAudio d.IsImage (isTrue d.Username)).1 hv).2.1
    have h3 := occurs3 d .ogVideo hm 5 _ _ _ _ ogVideo_type
    exact h3
  · intro hv
    rcases h with h | h
    · rw [hv] at h; cases h
    · exact hs.2 hv h
  · intro c
    unfold htmlReplacementTable
    constructor
    · intro hc
      split_ifs at hc
      refine ⟨?_, ?_, ?_, ?_, ?_, ?_, ?_⟩ <;> assumption
    · rintro ⟨h0, h1, h2, h3, h4, h5, h6⟩
      simp [h0, h1, h2, h3, h4, h5, h6]

/-- C9 amended, at the audio page with `ContentType = "audio/amr-wb+"`. -/
theorem content_type_attribute_escaped_amr :
    (amrPage.IsVideo = true ∨ amrPage.IsAudio = true) ∧
    ∃ A B : String, PlayerTemplate amrPage = .ok (A ++
        ("                            <source src=\"" ++ urlAttrEscaper amrPage.RawURL ++
          "\" type=\"" ++ attrEscaper amrPage.ContentType ++ "\">\n") ++ B) ∧
      ¬ Occurs sourceTag A ∧ ¬ Occurs sourceTag B :=
  ⟨Or.inr rfl, (content_type_attribute_escaped amrPage (Or.inr rfl)).2.1 rfl⟩

/-! ## C10: `og:description` -/

set_option maxRecDepth 100000 in
theorem ogDescription_around :
    clearOf ogDescriptionTag (Part.head.nodes.take 17) = true ∧
    clearOf ogDescriptionTag ((Part.head.nodes.drop 17).drop 5) = true := by decide!

/-- C10. For every page data, whatever `Username` is, the page holds exactly one
`og:description` meta tag, and its content is the escaped `T["uploaded_by"]`, one
space, and the escaped `Username`.  The tag is written on every execution (it is
not inside `{{if .Username}}`): with `Username = ""` the escaped name is empty, so
the content is the escaped label followed by the space and nothing else. -/
theorem og_description_always_written (d : PageData) :
    ∃ A B : String, PlayerTemplate d = .ok (A ++
        ("    <meta property=\"og:description\" content=\"" ++
          attrEscaper (valueAt d.T "uploaded_by") ++ " " ++ attrEscaper d.Username ++
          "\">\n") ++ B) ∧
      ¬ Occurs ogDescriptionTag A ∧ ¬ Occurs ogDescriptionTag B ∧
      (d.Username = "" → attrEscaper d.Username = "") := by
  obtain ⟨A, B, h1, h2, h3⟩ := unique_in_part d ogDescriptionTag _ rfl .head _ _ _
    (nodes_split .head 17 5) ogDescription_around.1 ogDescription_around.2
    [.head] ogDescription_home (head_mem _ _ _ _)
    (fun q _ hq => by simpa using hq)
  rw [head_ogDescription, render5] at h1
  refine ⟨A, B, h1, h2, h3, ?_⟩
  intro hu
  rw [hu]
  rfl

end Mediashare
